import Mathlib

/-!
# Probabilistic call stack: a shallow embedding of `probabilistic_callstack.cpp`

The program picks one of thirteen wrapper functions at random and runs it; every
wrapper ends in `execute_payload`, reached through a differently shaped chain of
calls.  The embedding is explicit state passing:

* `Env` holds everything the program reads from outside: the C runtime's random
  generator (as the stream each seed produces), the clock, the outcome of each
  allocation attempt and the result of each stack capture;
* `St` holds what the program mutates: the generator's position, how many of the
  external answers were consumed, `g_execution_id`, the native call stack and the
  chronological trace of observable events;
* a C function `void f()` becomes `f : Env → St → St`; `call` pushes the frame on
  entry and pops it on return.

`int` values are `Int`; the C operator `%` on `int` is `Int.tmod` (truncation
towards zero); an array access outside its bounds is undefined behaviour and is
modelled by `none`.

Console output is kept only where it carries information the results speak about
(one `enter` event per function, where the source prints its banner, the
`Selected:` line, the lines of a stack trace); the wording of the messages, the
wait for a key (`getchar`) and the final statistics table, printed from
`path_usage`, are left out.  The sections follow the source file, whose line
numbers they quote.
-/

namespace ProbCallStack

/-! ## Configuration (lines 25-27) -/

/-- Number of registered wrappers (`#define NUM_WRAPPERS 13`). -/
def NUM_WRAPPERS : Int := 13

/-- Capacity of the capture buffer (`#define MAX_STACK_DEPTH 64`). -/
def MAX_STACK_DEPTH : Nat := 64

/-- Largest value `rand()` returns on the Windows C runtimes the file is built for
(`RAND_MAX` of `stdlib.h`, `0x7fff`). -/
def RAND_MAX : Nat := 32767

/-! ## Frames, events, environment, state -/

/-- One constructor per function of the program; the two recursive helpers carry
their `depth` argument. -/
inductive Frame
  | main
  | run_demonstration
  | execute_random_path
  | capture_and_print_stack
  | execute_payload
  | aux_small_delay
  | aux_get_time
  | aux_heap_operation
  | aux_query_perf
  | aux_thread_info
  | wrapper_path_A_direct
  | wrapper_path_B_inner
  | wrapper_path_B_nested
  | wrapper_path_C_level3
  | wrapper_path_C_level2
  | wrapper_path_C_deep
  | wrapper_path_D_indirect
  | wrapper_path_E_recursive (depth : Int)
  | wrapper_path_E_entry
  | wrapper_path_F_heavy
  | wrapper_path_G_virtual
  | wrapper_path_H_level5
  | wrapper_path_H_level4
  | wrapper_path_H_level3
  | wrapper_path_H_level2
  | wrapper_path_H_level1
  | wrapper_path_H_tower
  | wrapper_path_I_level6
  | wrapper_path_I_level5
  | wrapper_path_I_level4
  | wrapper_path_I_level3
  | wrapper_path_I_level2
  | wrapper_path_I_level1
  | wrapper_path_I_deep6
  | wrapper_path_J_final
  | wrapper_path_J_link4
  | wrapper_path_J_link3
  | wrapper_path_J_link2
  | wrapper_path_J_link1
  | wrapper_path_J_chain
  | wrapper_path_K_nested_inner
  | wrapper_path_K_nested_outer
  | wrapper_path_K_recursive (depth : Int)
  | wrapper_path_K_mixed
  | wrapper_path_L_level7
  | wrapper_path_L_level6
  | wrapper_path_L_level5
  | wrapper_path_L_level4
  | wrapper_path_L_level3
  | wrapper_path_L_level2
  | wrapper_path_L_level1
  | wrapper_path_L_staircase
  | wrapper_path_M_terminus_alpha
  | wrapper_path_M_terminus_beta
  | wrapper_path_M_branch_level4
  | wrapper_path_M_level3
  | wrapper_path_M_level2_left
  | wrapper_path_M_level2_right
  | wrapper_path_M_level1
  | wrapper_path_M_branching

/-- Observable events, in the order the program produces them. -/
inductive Event
  /-- a function of the program is entered -/
  | enter (f : Frame)
  /-- the payload action (`MessageBoxA`) runs; `stack` is the call stack then -/
  | payload (stack : List Frame)
  /-- `Sleep(ms)` -/
  | sleep (ms : Int)
  /-- an allocation attempt (`HeapAlloc`, `VirtualAlloc`) and whether it succeeded -/
  | alloc (ok : Bool)
  /-- a release (`HeapFree`, `VirtualFree`) -/
  | free
  /-- an informational system query (time, counters, identifiers, environment) -/
  | query
  /-- the line `Selected: <name>` of `execute_random_path` -/
  | selected (id : Int) (name : String)
  /-- header of a stack trace: the number of captured frames -/
  | stack_header (frames : Nat)
  /-- one line of a stack trace: frame index, and whether its symbol resolved -/
  | stack_frame (i : Nat) (resolved : Bool)
  /-- the line `... (n more frames)` -/
  | stack_more (n : Nat)
  /-- the stack trace is complete (`SymCleanup`) -/
  | stack_done

/-- Everything the program obtains from outside. -/
structure Env where
  /-- the C runtime generator: `gen seed k` is the `k`-th value `rand()` returns
  after `srand(seed)`; values are non-negative as the C standard requires -/
  gen : Nat → Nat → Nat
  /-- value of the `k`-th call of `time(NULL)` -/
  time : Nat → Nat
  /-- whether the `k`-th allocation attempt succeeds -/
  alloc : Nat → Bool
  /-- frame count returned by the `k`-th `RtlCaptureStackBackTrace` -/
  frames : Nat → Nat
  /-- whether `SymFromAddr` succeeds for frame `i` of the `k`-th capture -/
  resolves : Nat → Nat → Bool

/-- Mutable state of one process. -/
structure St where
  /-- seed last given to `srand` (1 before any call, as in C) -/
  seed : Nat
  /-- number of `rand()` calls since that `srand` -/
  drawn : Nat
  /-- number of `time(NULL)` calls so far -/
  clock : Nat
  /-- number of allocation attempts so far -/
  allocs : Nat
  /-- number of stack captures so far -/
  captures : Nat
  /-- the global `g_execution_id` -/
  g_execution_id : Int
  /-- the native call stack, outermost frame first -/
  stack : List Frame
  /-- events so far, oldest first -/
  trace : List Event

/-- State of a fresh process. -/
def St.init : St :=
  { seed := 1, drawn := 0, clock := 0, allocs := 0, captures := 0,
    g_execution_id := 0, stack := [], trace := [] }

/-! ## Primitives -/

/-- Append one event to the trace. -/
def emit (e : Event) (s : St) : St :=
  { s with trace := s.trace ++ [e] }

/-- Entering the function `f`: its frame is pushed and the entry recorded. -/
def push (f : Frame) (s : St) : St :=
  { s with stack := s.stack ++ [f], trace := s.trace ++ [Event.enter f] }

/-- Returning from a function: the innermost frame is popped. -/
def pop (s : St) : St :=
  { s with stack := s.stack.dropLast }

/-- A call of the function `f` with body `body`. -/
def call (f : Frame) (body : St → St) (s : St) : St :=
  pop (body (push f s))

/-- A call of a function whose body may run into undefined behaviour. -/
def call_opt {α : Type} (f : Frame) (body : St → Option (α × St)) (s : St) :
    Option (α × St) :=
  (body (push f s)).map (fun r => (r.1, pop r.2))

/-- The library function `rand()`. -/
def rand (env : Env) (s : St) : Int × St :=
  ((env.gen s.seed s.drawn : Nat), { s with drawn := s.drawn + 1 })

/-- The library function `srand(seed)`. -/
def srand (seed : Nat) (s : St) : St :=
  { s with seed := seed, drawn := 0 }

/-- The library function `time(NULL)`. -/
def time (env : Env) (s : St) : Nat × St :=
  (env.time s.clock, { s with clock := s.clock + 1 })

/-- An allocation attempt (`HeapAlloc`, `VirtualAlloc`): whether a non-null
pointer came back. -/
def alloc (env : Env) (s : St) : Bool × St :=
  (env.alloc s.allocs,
    { s with allocs := s.allocs + 1, trace := s.trace ++ [Event.alloc (env.alloc s.allocs)] })

/-- The system call `RtlCaptureStackBackTrace(0, MAX_STACK_DEPTH, stack, NULL)`:
the number of frames written to the buffer. -/
def RtlCaptureStackBackTrace (env : Env) (s : St) : Nat × St :=
  (env.frames s.captures, { s with captures := s.captures + 1 })

/-- The statement `if (mem) <release mem>`: the block is released when the
allocation had succeeded. -/
def release_if (mem : Bool) (s : St) : St :=
  if mem then emit Event.free s else s

/-- Access `xs[i]` for an `int` index; `none` outside the bounds. -/
def index {α : Type} (xs : List α) (i : Int) : Option α :=
  if 0 ≤ i then xs.get? i.toNat else none

/-! ## Payload (lines 42-52) -/

/-- `execute_payload`: shows the message box. -/
def execute_payload (s : St) : St :=
  call Frame.execute_payload (fun s => emit (Event.payload s.stack) s) s

/-! ## Stack trace capture (lines 59-96) -/

/-- Body of the loop `for (i = 0; i < frames && i < 15; i++)`: one line per frame,
with the symbol name or `<unknown>`. -/
def print_frame (env : Env) (k : Nat) (s : St) (i : Nat) : St :=
  if env.resolves k i then emit (Event.stack_frame i true) s
  else emit (Event.stack_frame i false) s

/-- `capture_and_print_stack(context)`. -/
def capture_and_print_stack (env : Env) (s : St) : St :=
  call Frame.capture_and_print_stack (fun s =>
    let k := s.captures
    let frames := RtlCaptureStackBackTrace env s
    let s := emit (Event.stack_header frames.1) frames.2
    let s := (List.range (min frames.1 15)).foldl (print_frame env k) s
    let s := if frames.1 > 15 then emit (Event.stack_more (frames.1 - 15)) s else s
    emit Event.stack_done s) s

/-! ## Auxiliary functions (lines 104-140) -/

/-- `aux_small_delay`: `Sleep(rand() % 10 + 1)`. -/
def aux_small_delay (env : Env) (s : St) : St :=
  call Frame.aux_small_delay (fun s =>
    let r := rand env s
    emit (Event.sleep (Int.tmod r.1 10 + 1)) r.2) s

/-- `aux_get_time`. -/
def aux_get_time (s : St) : St :=
  call Frame.aux_get_time (emit Event.query) s

/-- `aux_heap_operation`: allocate 64 bytes and free them when that worked. -/
def aux_heap_operation (env : Env) (s : St) : St :=
  call Frame.aux_heap_operation (fun s =>
    let mem := alloc env s
    release_if mem.1 mem.2) s

/-- `aux_query_perf`. -/
def aux_query_perf (s : St) : St :=
  call Frame.aux_query_perf (emit Event.query) s

/-- `aux_thread_info`. -/
def aux_thread_info (s : St) : St :=
  call Frame.aux_thread_info (emit Event.query) s

/-! ## Wrapper functions (lines 148-522) -/

/-- Path A, `wrapper_path_A_direct`. -/
def wrapper_path_A_direct (_env : Env) (s : St) : St :=
  call Frame.wrapper_path_A_direct (fun s => execute_payload (aux_thread_info s)) s

/-- Path B, inner function. -/
def wrapper_path_B_inner (s : St) : St :=
  call Frame.wrapper_path_B_inner (fun s => execute_payload (aux_get_time s)) s

/-- Path B, `wrapper_path_B_nested`. -/
def wrapper_path_B_nested (env : Env) (s : St) : St :=
  call Frame.wrapper_path_B_nested (fun s => wrapper_path_B_inner (aux_small_delay env s)) s

/-- Path C, level 3. -/
def wrapper_path_C_level3 (s : St) : St :=
  call Frame.wrapper_path_C_level3 execute_payload s

/-- Path C, level 2. -/
def wrapper_path_C_level2 (s : St) : St :=
  call Frame.wrapper_path_C_level2 (fun s => wrapper_path_C_level3 (aux_query_perf s)) s

/-- Path C, `wrapper_path_C_deep`. -/
def wrapper_path_C_deep (env : Env) (s : St) : St :=
  call Frame.wrapper_path_C_deep (fun s => wrapper_path_C_level2 (aux_heap_operation env s)) s

/-- Path D, `wrapper_path_D_indirect`: the payload is called through the pointer
`ptr = execute_payload`. -/
def wrapper_path_D_indirect (_env : Env) (s : St) : St :=
  call Frame.wrapper_path_D_indirect (fun s =>
    let s := aux_get_time s
    let ptr : St → St := execute_payload
    ptr s) s

/-- Path E, `wrapper_path_E_recursive(depth)`. -/
def wrapper_path_E_recursive (env : Env) (depth : Int) (s : St) : St :=
  call (Frame.wrapper_path_E_recursive depth) (fun s =>
    if _h : depth ≤ 0 then
      execute_payload (aux_thread_info s)
    else
      wrapper_path_E_recursive env (depth - 1) (aux_small_delay env s)) s
termination_by depth.toNat
decreasing_by omega

/-- Recursion depth drawn by path E: `rand() % 3 + 1`. -/
def E_depth (r : Int) : Int := Int.tmod r 3 + 1

/-- Path E, `wrapper_path_E_entry`. -/
def wrapper_path_E_entry (env : Env) (s : St) : St :=
  call Frame.wrapper_path_E_entry (fun s =>
    let r := rand env s
    let recursion_depth := E_depth r.1
    wrapper_path_E_recursive env recursion_depth r.2) s

/-- Path F, `wrapper_path_F_heavy`. -/
def wrapper_path_F_heavy (env : Env) (s : St) : St :=
  call Frame.wrapper_path_F_heavy (fun s =>
    let s := aux_thread_info s
    let s := aux_get_time s
    let s := aux_heap_operation env s
    let s := aux_query_perf s
    let s := aux_small_delay env s
    execute_payload s) s

/-- Path G, `wrapper_path_G_virtual`: the page is released, when it was obtained,
before the payload is called. -/
def wrapper_path_G_virtual (env : Env) (s : St) : St :=
  call Frame.wrapper_path_G_virtual (fun s =>
    let mem := alloc env s
    let s := release_if mem.1 mem.2
    let s := aux_heap_operation env s
    execute_payload s) s

/-- Path H, level 5. -/
def wrapper_path_H_level5 (s : St) : St :=
  call Frame.wrapper_path_H_level5 (fun s => execute_payload (aux_thread_info s)) s

/-- Path H, level 4. -/
def wrapper_path_H_level4 (s : St) : St :=
  call Frame.wrapper_path_H_level4 (fun s => wrapper_path_H_level5 (aux_query_perf s)) s

/-- Path H, level 3. -/
def wrapper_path_H_level3 (env : Env) (s : St) : St :=
  call Frame.wrapper_path_H_level3 (fun s => wrapper_path_H_level4 (aux_heap_operation env s)) s

/-- Path H, level 2. -/
def wrapper_path_H_level2 (env : Env) (s : St) : St :=
  call Frame.wrapper_path_H_level2 (fun s => wrapper_path_H_level3 env (aux_get_time s)) s

/-- Path H, level 1. -/
def wrapper_path_H_level1 (env : Env) (s : St) : St :=
  call Frame.wrapper_path_H_level1 (fun s => wrapper_path_H_level2 env (aux_small_delay env s)) s

/-- Path H, `wrapper_path_H_tower`. -/
def wrapper_path_H_tower (env : Env) (s : St) : St :=
  call Frame.wrapper_path_H_tower (wrapper_path_H_level1 env) s

/-- Path I, level 6. -/
def wrapper_path_I_level6 (s : St) : St :=
  call Frame.wrapper_path_I_level6 execute_payload s

/-- Path I, level 5: the block is allocated before and freed after the call of
level 6. -/
def wrapper_path_I_level5 (env : Env) (s : St) : St :=
  call Frame.wrapper_path_I_level5 (fun s =>
    let m := alloc env s
    let s := wrapper_path_I_level6 m.2
    release_if m.1 s) s

/-- Path I, level 4. -/
def wrapper_path_I_level4 (env : Env) (s : St) : St :=
  call Frame.wrapper_path_I_level4 (fun s => wrapper_path_I_level5 env (emit Event.query s)) s

/-- Path I, level 3. -/
def wrapper_path_I_level3 (env : Env) (s : St) : St :=
  call Frame.wrapper_path_I_level3 (fun s => wrapper_path_I_level4 env (emit Event.query s)) s

/-- Path I, level 2. -/
def wrapper_path_I_level2 (env : Env) (s : St) : St :=
  call Frame.wrapper_path_I_level2 (fun s => wrapper_path_I_level3 env (emit Event.query s)) s

/-- Path I, level 1. -/
def wrapper_path_I_level1 (env : Env) (s : St) : St :=
  call Frame.wrapper_path_I_level1 (fun s => wrapper_path_I_level2 env (emit (Event.sleep 1) s)) s

/-- Path I, `wrapper_path_I_deep6`. -/
def wrapper_path_I_deep6 (env : Env) (s : St) : St :=
  call Frame.wrapper_path_I_deep6 (wrapper_path_I_level1 env) s

/-- Path J, end of the chain. -/
def wrapper_path_J_final (env : Env) (s : St) : St :=
  call Frame.wrapper_path_J_final (fun s => execute_payload (aux_heap_operation env s)) s

/-- Path J, link 4. -/
def wrapper_path_J_link4 (env : Env) (s : St) : St :=
  call Frame.wrapper_path_J_link4 (fun s =>
    let next : St → St := wrapper_path_J_final env
    next (aux_small_delay env s)) s

/-- Path J, link 3. -/
def wrapper_path_J_link3 (env : Env) (s : St) : St :=
  call Frame.wrapper_path_J_link3 (fun s =>
    let next : St → St := wrapper_path_J_link4 env
    next (aux_query_perf s)) s

/-- Path J, link 2. -/
def wrapper_path_J_link2 (env : Env) (s : St) : St :=
  call Frame.wrapper_path_J_link2 (fun s =>
    let next : St → St := wrapper_path_J_link3 env
    next (aux_get_time s)) s

/-- Path J, link 1. -/
def wrapper_path_J_link1 (env : Env) (s : St) : St :=
  call Frame.wrapper_path_J_link1 (fun s =>
    let next : St → St := wrapper_path_J_link2 env
    next (aux_thread_info s)) s

/-- Path J, `wrapper_path_J_chain`. -/
def wrapper_path_J_chain (env : Env) (s : St) : St :=
  call Frame.wrapper_path_J_chain (fun s =>
    let start : St → St := wrapper_path_J_link1 env
    start s) s

/-- Path K, nested inner function. -/
def wrapper_path_K_nested_inner (s : St) : St :=
  call Frame.wrapper_path_K_nested_inner (fun s => execute_payload (aux_get_time s)) s

/-- Path K, nested outer function. -/
def wrapper_path_K_nested_outer (env : Env) (s : St) : St :=
  call Frame.wrapper_path_K_nested_outer (fun s =>
    wrapper_path_K_nested_inner (aux_heap_operation env s)) s

/-- Path K, `wrapper_path_K_recursive(depth)`. -/
def wrapper_path_K_recursive (env : Env) (depth : Int) (s : St) : St :=
  call (Frame.wrapper_path_K_recursive depth) (fun s =>
    let s := aux_small_delay env s
    if _h : depth ≤ 0 then
      wrapper_path_K_nested_outer env s
    else
      wrapper_path_K_recursive env (depth - 1) s) s
termination_by depth.toNat
decreasing_by omega

/-- Recursion depth drawn by path K: `rand() % 4 + 1`. -/
def K_depth (r : Int) : Int := Int.tmod r 4 + 1

/-- Path K, `wrapper_path_K_mixed`. -/
def wrapper_path_K_mixed (env : Env) (s : St) : St :=
  call Frame.wrapper_path_K_mixed (fun s =>
    let r := rand env s
    let depth := K_depth r.1
    wrapper_path_K_recursive env depth r.2) s

/-- Path L, level 7. -/
def wrapper_path_L_level7 (s : St) : St :=
  call Frame.wrapper_path_L_level7 execute_payload s

/-- Path L, level 6. -/
def wrapper_path_L_level6 (s : St) : St :=
  call Frame.wrapper_path_L_level6 (fun s => wrapper_path_L_level7 (emit Event.query s)) s

/-- Path L, level 5. -/
def wrapper_path_L_level5 (s : St) : St :=
  call Frame.wrapper_path_L_level5 (fun s => wrapper_path_L_level6 (emit Event.query s)) s

/-- Path L, level 4. -/
def wrapper_path_L_level4 (s : St) : St :=
  call Frame.wrapper_path_L_level4 (fun s => wrapper_path_L_level5 (emit Event.query s)) s

/-- Path L, level 3. -/
def wrapper_path_L_level3 (s : St) : St :=
  call Frame.wrapper_path_L_level3 (fun s => wrapper_path_L_level4 (emit Event.query s)) s

/-- Path L, level 2. -/
def wrapper_path_L_level2 (s : St) : St :=
  call Frame.wrapper_path_L_level2 (fun s => wrapper_path_L_level3 (emit Event.query s)) s

/-- Path L, level 1. -/
def wrapper_path_L_level1 (s : St) : St :=
  call Frame.wrapper_path_L_level1 (fun s => wrapper_path_L_level2 (aux_thread_info s)) s

/-- Path L, `wrapper_path_L_staircase`. -/
def wrapper_path_L_staircase (_env : Env) (s : St) : St :=
  call Frame.wrapper_path_L_staircase wrapper_path_L_level1 s

/-- Path M, terminus alpha. -/
def wrapper_path_M_terminus_alpha (s : St) : St :=
  call Frame.wrapper_path_M_terminus_alpha (fun s => execute_payload (aux_get_time s)) s

/-- Path M, terminus beta. -/
def wrapper_path_M_terminus_beta (s : St) : St :=
  call Frame.wrapper_path_M_terminus_beta (fun s => execute_payload (aux_query_perf s)) s

/-- Path M, level 4: `if (rand() % 2)` takes alpha, otherwise beta. -/
def wrapper_path_M_branch_level4 (env : Env) (s : St) : St :=
  call Frame.wrapper_path_M_branch_level4 (fun s =>
    let r := rand env s
    if Int.tmod r.1 2 ≠ 0 then wrapper_path_M_terminus_alpha r.2
    else wrapper_path_M_terminus_beta r.2) s

/-- Path M, level 3. -/
def wrapper_path_M_level3 (env : Env) (s : St) : St :=
  call Frame.wrapper_path_M_level3 (fun s =>
    wrapper_path_M_branch_level4 env (aux_heap_operation env s)) s

/-- Path M, level 2, left. -/
def wrapper_path_M_level2_left (env : Env) (s : St) : St :=
  call Frame.wrapper_path_M_level2_left (fun s =>
    wrapper_path_M_level3 env (aux_small_delay env s)) s

/-- Path M, level 2, right. -/
def wrapper_path_M_level2_right (env : Env) (s : St) : St :=
  call Frame.wrapper_path_M_level2_right (fun s =>
    wrapper_path_M_level3 env (aux_thread_info s)) s

/-- Path M, level 1: `if (rand() % 2)` goes left, otherwise right. -/
def wrapper_path_M_level1 (env : Env) (s : St) : St :=
  call Frame.wrapper_path_M_level1 (fun s =>
    let r := rand env s
    if Int.tmod r.1 2 ≠ 0 then wrapper_path_M_level2_left env r.2
    else wrapper_path_M_level2_right env r.2) s

/-- Path M, `wrapper_path_M_branching`. -/
def wrapper_path_M_branching (env : Env) (s : St) : St :=
  call Frame.wrapper_path_M_branching (wrapper_path_M_level1 env) s

/-! ## Path selection and execution (lines 529-580) -/

/-- The array `g_wrappers` of function pointers. -/
def g_wrappers : List (Env → St → St) :=
  [ wrapper_path_A_direct,
    wrapper_path_B_nested,
    wrapper_path_C_deep,
    wrapper_path_D_indirect,
    wrapper_path_E_entry,
    wrapper_path_F_heavy,
    wrapper_path_G_virtual,
    wrapper_path_H_tower,
    wrapper_path_I_deep6,
    wrapper_path_J_chain,
    wrapper_path_K_mixed,
    wrapper_path_L_staircase,
    wrapper_path_M_branching ]

/-- The array `g_wrapper_names`. -/
def g_wrapper_names : List String :=
  [ "Path A (Direct)",
    "Path B (Nested - 2 levels)",
    "Path C (Deep - 3 levels)",
    "Path D (Indirect)",
    "Path E (Recursive - 1-3 levels)",
    "Path F (Heavy Aux)",
    "Path G (VirtualAlloc)",
    "Path H (Tower - 5 levels)",
    "Path I (Deep - 6 levels)",
    "Path J (Ptr Chain - 5 links)",
    "Path K (Mixed - 4-7 levels)",
    "Path L (Staircase - 7 levels)",
    "Path M (Branching - 5 levels)" ]

/-- The selector: `rand() % NUM_WRAPPERS` for the value `r` that `rand()` returned. -/
def select (r : Int) : Int := Int.tmod r NUM_WRAPPERS

/-- `execute_random_path`: draw the index, print the name, capture the stack, call
the selected wrapper.  The result carries the selected index. -/
def execute_random_path (env : Env) (s : St) : Option (Int × St) :=
  call_opt Frame.execute_random_path (fun s =>
    let r := rand env s
    let selected := select r.1
    match index g_wrapper_names selected with
    | none => none
    | some name =>
      let s := emit (Event.selected selected name) r.2
      let s := capture_and_print_stack env s
      match index g_wrappers selected with
      | none => none
      | some wrapper => some (selected, wrapper env s)) s

/-! ## Demonstration mode (lines 587-620) -/

/-- The statement `path_usage[preview]++`. -/
def increment (path_usage : List Int) (preview : Int) : Option (List Int) :=
  match index path_usage preview with
  | none => none
  | some n => some (path_usage.set preview.toNat (n + 1))

/-- The argument of `srand` inside the loop, `(unsigned int)time(NULL) + i * 1000`,
in 32-bit unsigned arithmetic.  The product `i * 1000` is an `int`; it stays in
range for `i ≤ 2147483`, and beyond that the value taken here is the one wrap-around
arithmetic gives. -/
def reseed (t : Nat) (i : Int) : Nat :=
  ((((t % 4294967296 : Nat) : Int) + i * 1000) % 4294967296).toNat

/-- Body of the loop of `run_demonstration` for the value `i` of the counter.
Besides the state it threads the local array `path_usage` and the list `ran` of
the indices the executions really selected (newest last); `getchar()` only waits
for a key and is left out. -/
def run_iteration (env : Env) (i : Int) (path_usage : List Int) (ran : List Int) (s : St) :
    Option ((List Int × List Int) × St) :=
  let s := { s with g_execution_id := i + 1 }
  -- Record which path will be selected
  let r := rand env s
  let preview := select r.1
  match increment path_usage preview with
  | none => none
  | some path_usage =>
    -- Re-seed to get same selection
    let t := time env r.2
    let s := srand (reseed t.1 i) t.2
    match execute_random_path env s with
    | none => none
    | some (selected, s) => some ((path_usage, ran ++ [selected]), s)

/-- `run_demonstration(num_runs)`: the loop `for (int i = 0; i < num_runs; i++)`
runs its body for `i = 0, ..., num_runs - 1` (not at all when `num_runs ≤ 0`).
The result is the final `path_usage`, the indices selected by the executions in
order, and the state. -/
def run_demonstration (env : Env) (num_runs : Int) (s : St) :
    Option ((List Int × List Int) × St) :=
  call_opt Frame.run_demonstration (fun s =>
    let path_usage : List Int := List.replicate NUM_WRAPPERS.toNat 0
    (List.range num_runs.toNat).foldlM
      (fun acc (i : Nat) => run_iteration env (i : Int) acc.1.1 acc.1.2 acc.2)
      ((path_usage, []), s)) s

/-! ## Entry point (lines 626-660) -/

/-- The C classification `isspace`. -/
def isspace (c : Char) : Bool :=
  c = ' ' || c = '\t' || c = '\n' || c = '\r' || c.toNat = 11 || c.toNat = 12

/-- The library function `atoi`: leading white space, an optional sign, then the
longest run of decimal digits; 0 when there is no digit. -/
def atoi (str : String) : Int :=
  let cs := str.toList.dropWhile isspace
  let negative := cs.head? = some '-'
  let cs := if cs.head? = some '-' ∨ cs.head? = some '+' then cs.tail else cs
  let digits := cs.takeWhile Char.isDigit
  let value : Int := digits.foldl (fun acc c => acc * 10 + ((c.toNat : Int) - 48)) 0
  if negative then -value else value

/-- The two statements `if (num_runs < 1) num_runs = 1; if (num_runs > 10)
num_runs = 10;`. -/
def clamp_runs (num_runs : Int) : Int :=
  let num_runs := if num_runs < 1 then 1 else num_runs
  let num_runs := if num_runs > 10 then 10 else num_runs
  num_runs

/-- The value `main` computes for `num_runs` (lines 635-641); `argv` is the whole
argument vector, program name first, so `argc = argv.length`. -/
def main_num_runs (argv : List String) : Int :=
  let num_runs : Int := 3
  if argv.length > 1 then
    clamp_runs (atoi (argv.getD 1 ""))
  else
    num_runs

/-- `main`: seed the generator from the clock, read the run count, run the
demonstration. -/
def main (env : Env) (argv : List String) (s : St) :
    Option ((List Int × List Int) × St) :=
  call_opt Frame.main (fun s =>
    let t := time env s
    let s := srand (t.1 % 4294967296) t.2
    let num_runs := main_num_runs argv
    run_demonstration env num_runs s) s

/-! ## The generator of the Microsoft C runtime -/

/-- One step of the linear congruential generator behind `rand()` in the Microsoft
C runtime (used by both MSVC and MinGW builds): `x * 214013 + 2531011` on 32 bits. -/
def msvc_step (x : Nat) : Nat := (x * 214013 + 2531011) % 4294967296

/-- Internal state after `k` further steps. -/
def msvc_state (seed : Nat) : Nat → Nat
  | 0 => seed % 4294967296
  | k + 1 => msvc_step (msvc_state seed k)

/-- The `k`-th value of `rand()` after `srand(seed)`: bits 16 to 30 of the state. -/
def msvc_gen (seed k : Nat) : Nat := (msvc_state seed (k + 1) / 65536) % 32768

/-- A sample environment: the Microsoft generator; a clock that reads 1700000000
when `main` starts and when the first execution starts, and five seconds more at
each later execution; allocations that succeed; captures of six resolvable
frames. -/
def demo_env : Env :=
  { gen := msvc_gen, time := fun k => 1700000000 + 5 * (k - 1), alloc := fun _ => true,
    frames := fun _ => 6, resolves := fun _ _ => true }

/-! ## Observations on a state -/

/-- The call stack an event reports, when it is a payload execution. -/
def Event.payload_stack? : Event → Option (List Frame)
  | Event.payload stack => some stack
  | _ => none

/-- The call stacks of the payload executions so far, oldest first. -/
def payload_stacks (s : St) : List (List Frame) :=
  s.trace.filterMap Event.payload_stack?

/-- Number of payload executions so far. -/
def payload_calls (s : St) : Nat := (payload_stacks s).length

/-- The depth argument of a frame of one of the two recursive helpers. -/
def Frame.helper_depth? : Frame → Option Int
  | Frame.wrapper_path_E_recursive depth => some depth
  | Frame.wrapper_path_K_recursive depth => some depth
  | _ => none

/-- The depth argument an event reports, when it is the entry of a recursive
helper. -/
def Event.helper_depth? : Event → Option Int
  | Event.enter f => Frame.helper_depth? f
  | _ => none

/-- The depth arguments of the invocations of the recursive helpers so far, oldest
first. -/
def helper_calls (s : St) : List Int :=
  s.trace.filterMap Event.helper_depth?

/-- Number of values of `rand()`, among `0, ..., RAND_MAX`, for which the selector
yields the index `id`. -/
def outputs_selecting (id : Int) : Nat :=
  Nat.count (fun r : Nat => select r = id) (RAND_MAX + 1)

/-- The sequence `n, n-1, ..., 1, 0`. -/
def countdown : Nat → List Int
  | 0 => [0]
  | n + 1 => ((n : Int) + 1) :: countdown n

/-- The state `t` is reached from `s` by adding events only. -/
def Extends (s t : St) : Prop := ∃ extra, t.trace = s.trace ++ extra

/-- The step from `s` to `t` keeps the call stack, runs no payload and only adds
events. -/
def Quiet (s t : St) : Prop :=
  t.stack = s.stack ∧ payload_stacks t = payload_stacks s ∧ Extends s t

/-- The level-2 function path M enters when the first draw is `r`. -/
def M_side (r : Int) : Frame :=
  if Int.tmod r 2 ≠ 0 then Frame.wrapper_path_M_level2_left
  else Frame.wrapper_path_M_level2_right

/-- The terminus path M enters when the second draw is `r`. -/
def M_terminus (r : Int) : Frame :=
  if Int.tmod r 2 ≠ 0 then Frame.wrapper_path_M_terminus_alpha
  else Frame.wrapper_path_M_terminus_beta

/-- Position in the generator's stream of the second draw of path M, when the
first draw, at position `k`, was `r`: the left side draws once more in between
(`aux_small_delay`). -/
def M_second_draw (r : Int) (k : Nat) : Nat :=
  if Int.tmod r 2 ≠ 0 then k + 2 else k + 1

/-- The function an event reports the entry of. -/
def Event.entered? : Event → Option Frame
  | Event.enter f => some f
  | _ => none

/-- The functions entered so far, in the order of their calls. -/
def entered (s : St) : List Frame :=
  s.trace.filterMap Event.entered?

/-- The auxiliary function called by the level-2 function of path M that the
first draw `r` selects: `aux_small_delay` on the left, `aux_thread_info` on the
right. -/
def M_side_aux (r : Int) : Frame :=
  if Int.tmod r 2 ≠ 0 then Frame.aux_small_delay else Frame.aux_thread_info

/-- The auxiliary function called by the terminus of path M that the second draw
`r` selects: `aux_get_time` in alpha, `aux_query_perf` in beta. -/
def M_terminus_aux (r : Int) : Frame :=
  if Int.tmod r 2 ≠ 0 then Frame.aux_get_time else Frame.aux_query_perf

/-- An environment whose generator is forced: whatever the seed, `rand()` returns
`draws k` at its `k`-th call; the rest is as in `demo_env`. -/
def forced_env (draws : Nat → Nat) : Env :=
  { gen := fun _ k => draws k, time := fun k => 1700000000 + 5 * (k - 1),
    alloc := fun _ => true, frames := fun _ => 6, resolves := fun _ _ => true }

/-! ## Basic facts about the primitives -/

@[simp]
theorem payload_stack?_values :
    (∀ stack, Event.payload_stack? (Event.payload stack) = some stack) ∧
    (∀ f, Event.payload_stack? (Event.enter f) = none) ∧
    (∀ ms, Event.payload_stack? (Event.sleep ms) = none) ∧
    (∀ ok, Event.payload_stack? (Event.alloc ok) = none) ∧
    Event.payload_stack? Event.free = none ∧
    Event.payload_stack? Event.query = none ∧
    (∀ id name, Event.payload_stack? (Event.selected id name) = none) ∧
    (∀ n, Event.payload_stack? (Event.stack_header n) = none) ∧
    (∀ i r, Event.payload_stack? (Event.stack_frame i r) = none) ∧
    (∀ n, Event.payload_stack? (Event.stack_more n) = none) ∧
    Event.payload_stack? Event.stack_done = none := by
  simp [Event.payload_stack?]

@[simp]
theorem helper_depth?_values :
    (∀ stack, Event.helper_depth? (Event.payload stack) = none) ∧
    (∀ f, Event.helper_depth? (Event.enter f) = Frame.helper_depth? f) ∧
    (∀ ms, Event.helper_depth? (Event.sleep ms) = none) ∧
    (∀ ok, Event.helper_depth? (Event.alloc ok) = none) ∧
    Event.helper_depth? Event.free = none ∧
    Event.helper_depth? Event.query = none ∧
    (∀ id name, Event.helper_depth? (Event.selected id name) = none) ∧
    (∀ n, Event.helper_depth? (Event.stack_header n) = none) ∧
    (∀ i r, Event.helper_depth? (Event.stack_frame i r) = none) ∧
    (∀ n, Event.helper_depth? (Event.stack_more n) = none) ∧
    Event.helper_depth? Event.stack_done = none := by
  simp [Event.helper_depth?]

@[simp]
theorem push_spec (f : Frame) (s : St) :
    (push f s).stack = s.stack ++ [f] ∧ payload_stacks (push f s) = payload_stacks s ∧
    (push f s).seed = s.seed ∧ (push f s).drawn = s.drawn ∧
    helper_calls (push f s) = helper_calls s ++ (Frame.helper_depth? f).toList := by
  cases h : Frame.helper_depth? f <;>
    simp [push, payload_stacks, helper_calls, List.filterMap_append, List.filterMap_cons, h]

@[simp]
theorem pop_spec (s : St) :
    (pop s).stack = s.stack.dropLast ∧ payload_stacks (pop s) = payload_stacks s ∧
    (pop s).seed = s.seed ∧ (pop s).drawn = s.drawn ∧
    helper_calls (pop s) = helper_calls s := by
  simp [pop, payload_stacks, helper_calls]

@[simp]
theorem emit_spec (e : Event) (s : St) :
    (emit e s).stack = s.stack ∧
    payload_stacks (emit e s) = payload_stacks s ++ (Event.payload_stack? e).toList ∧
    (emit e s).seed = s.seed ∧ (emit e s).drawn = s.drawn ∧
    helper_calls (emit e s) = helper_calls s ++ (Event.helper_depth? e).toList := by
  cases h : Event.payload_stack? e <;> cases h2 : Event.helper_depth? e <;>
    simp [emit, payload_stacks, helper_calls, List.filterMap_append, List.filterMap_cons, h, h2]

@[simp]
theorem rand_spec (env : Env) (s : St) :
    (rand env s).1 = (env.gen s.seed s.drawn : Nat) ∧
    (rand env s).2.stack = s.stack ∧ payload_stacks (rand env s).2 = payload_stacks s ∧
    (rand env s).2.seed = s.seed ∧ (rand env s).2.drawn = s.drawn + 1 ∧
    helper_calls (rand env s).2 = helper_calls s := by
  simp [rand, payload_stacks, helper_calls]

@[simp]
theorem alloc_spec (env : Env) (s : St) :
    (alloc env s).2.stack = s.stack ∧ payload_stacks (alloc env s).2 = payload_stacks s ∧
    (alloc env s).2.seed = s.seed ∧ (alloc env s).2.drawn = s.drawn ∧
    helper_calls (alloc env s).2 = helper_calls s := by
  simp [alloc, payload_stacks, helper_calls]

@[simp]
theorem release_if_spec (mem : Bool) (s : St) :
    (release_if mem s).stack = s.stack ∧
    payload_stacks (release_if mem s) = payload_stacks s ∧
    (release_if mem s).seed = s.seed ∧ (release_if mem s).drawn = s.drawn ∧
    helper_calls (release_if mem s) = helper_calls s := by
  cases mem <;> simp [release_if]

theorem extends_refl (s : St) : Extends s s := ⟨[], by simp⟩

theorem extends_trans {s t u : St} (h1 : Extends s t) (h2 : Extends t u) : Extends s u := by
  obtain ⟨a, ha⟩ := h1
  obtain ⟨b, hb⟩ := h2
  exact ⟨a ++ b, by rw [hb, ha, List.append_assoc]⟩

theorem push_extends {s t : St} (f : Frame) (h : Extends s t) : Extends s (push f t) :=
  extends_trans h ⟨[Event.enter f], rfl⟩

theorem pop_extends {s t : St} (h : Extends s t) : Extends s (pop t) :=
  extends_trans h ⟨[], by simp [pop]⟩

theorem emit_extends {s t : St} (e : Event) (h : Extends s t) : Extends s (emit e t) :=
  extends_trans h ⟨[e], rfl⟩

theorem rand_extends {s t : St} (env : Env) (h : Extends s t) : Extends s (rand env t).2 :=
  extends_trans h ⟨[], by simp [rand]⟩

theorem alloc_extends {s t : St} (env : Env) (h : Extends s t) : Extends s (alloc env t).2 :=
  extends_trans h ⟨[Event.alloc (env.alloc t.allocs)], rfl⟩

theorem release_if_extends {s t : St} (mem : Bool) (h : Extends s t) :
    Extends s (release_if mem t) := by
  cases mem
  · simpa [release_if] using h
  · exact extends_trans h ⟨[Event.free], by simp [release_if, emit]⟩

theorem ite_extends {s : St} {c : Prop} [Decidable c] {a b : St}
    (ha : Extends s a) (hb : Extends s b) : Extends s (if c then a else b) := by
  split <;> assumption

/-- What `Extends` says about the payload executions: the earlier ones stay, in
their order. -/
theorem extends_payload_stacks {s t : St} (h : Extends s t) :
    ∃ more, payload_stacks t = payload_stacks s ++ more := by
  obtain ⟨extra, he⟩ := h
  exact ⟨extra.filterMap Event.payload_stack?, by simp [payload_stacks, he]⟩

/-! ## Every function returns with the stack it was called on -/

@[simp]
theorem execute_payload_spec (s : St) :
    (execute_payload s).stack = s.stack ∧
    payload_stacks (execute_payload s) = payload_stacks s ++ [s.stack ++
      [ Frame.execute_payload ]] ∧
    helper_calls (execute_payload s) = helper_calls s := by
  simp [execute_payload, call, Frame.helper_depth?]

theorem execute_payload_extends {s t : St} (h : Extends s t) :
    Extends s (execute_payload t) :=
  pop_extends (emit_extends _ (push_extends _ h))

@[simp]
theorem aux_small_delay_spec (env : Env) (s : St) :
    (aux_small_delay env s).stack = s.stack ∧ payload_stacks (aux_small_delay env s) = payload_stacks s ∧
    (aux_small_delay env s).seed = s.seed ∧ (aux_small_delay env s).drawn = s.drawn + 1 ∧
    helper_calls (aux_small_delay env s) = helper_calls s := by
  simp [aux_small_delay, call, Frame.helper_depth?]

theorem aux_small_delay_extends {s t : St} (env : Env) (h : Extends s t) :
    Extends s (aux_small_delay env t) :=
  pop_extends (emit_extends _ (rand_extends _ (push_extends _ h)))

@[simp]
theorem aux_get_time_spec (s : St) :
    (aux_get_time s).stack = s.stack ∧ payload_stacks (aux_get_time s) = payload_stacks s ∧
    (aux_get_time s).seed = s.seed ∧ (aux_get_time s).drawn = s.drawn ∧
    helper_calls (aux_get_time s) = helper_calls s := by
  simp [aux_get_time, call, Frame.helper_depth?]

theorem aux_get_time_extends {s t : St} (h : Extends s t) :
    Extends s (aux_get_time t) :=
  pop_extends (emit_extends _ (push_extends _ h))

@[simp]
theorem aux_heap_operation_spec (env : Env) (s : St) :
    (aux_heap_operation env s).stack = s.stack ∧ payload_stacks (aux_heap_operation env s) = payload_stacks s ∧
    (aux_heap_operation env s).seed = s.seed ∧ (aux_heap_operation env s).drawn = s.drawn ∧
    helper_calls (aux_heap_operation env s) = helper_calls s := by
  simp [aux_heap_operation, call, Frame.helper_depth?]

theorem aux_heap_operation_extends {s t : St} (env : Env) (h : Extends s t) :
    Extends s (aux_heap_operation env t) :=
  pop_extends (release_if_extends _ (alloc_extends _ (push_extends _ h)))

@[simp]
theorem aux_query_perf_spec (s : St) :
    (aux_query_perf s).stack = s.stack ∧ payload_stacks (aux_query_perf s) = payload_stacks s ∧
    (aux_query_perf s).seed = s.seed ∧ (aux_query_perf s).drawn = s.drawn ∧
    helper_calls (aux_query_perf s) = helper_calls s := by
  simp [aux_query_perf, call, Frame.helper_depth?]

theorem aux_query_perf_extends {s t : St} (h : Extends s t) :
    Extends s (aux_query_perf t) :=
  pop_extends (emit_extends _ (push_extends _ h))

@[simp]
theorem aux_thread_info_spec (s : St) :
    (aux_thread_info s).stack = s.stack ∧ payload_stacks (aux_thread_info s) = payload_stacks s ∧
    (aux_thread_info s).seed = s.seed ∧ (aux_thread_info s).drawn = s.drawn ∧
    helper_calls (aux_thread_info s) = helper_calls s := by
  simp [aux_thread_info, call, Frame.helper_depth?]

theorem aux_thread_info_extends {s t : St} (h : Extends s t) :
    Extends s (aux_thread_info t) :=
  pop_extends (emit_extends _ (push_extends _ h))

@[simp]
theorem wrapper_path_A_direct_spec (env : Env) (s : St) :
    (wrapper_path_A_direct env s).stack = s.stack ∧
    payload_stacks (wrapper_path_A_direct env s) = payload_stacks s ++ [s.stack ++
      [ Frame.wrapper_path_A_direct,
        Frame.execute_payload ]] ∧
    helper_calls (wrapper_path_A_direct env s) = helper_calls s := by
  simp [wrapper_path_A_direct, call, Frame.helper_depth?]

theorem wrapper_path_A_direct_extends {s t : St} (env : Env) (h : Extends s t) :
    Extends s (wrapper_path_A_direct env t) :=
  pop_extends (execute_payload_extends (aux_thread_info_extends (push_extends _ h)))

@[simp]
theorem wrapper_path_B_inner_spec (s : St) :
    (wrapper_path_B_inner s).stack = s.stack ∧
    payload_stacks (wrapper_path_B_inner s) = payload_stacks s ++ [s.stack ++
      [ Frame.wrapper_path_B_inner,
        Frame.execute_payload ]] ∧
    helper_calls (wrapper_path_B_inner s) = helper_calls s := by
  simp [wrapper_path_B_inner, call, Frame.helper_depth?]

theorem wrapper_path_B_inner_extends {s t : St} (h : Extends s t) :
    Extends s (wrapper_path_B_inner t) :=
  pop_extends (execute_payload_extends (aux_get_time_extends (push_extends _ h)))

@[simp]
theorem wrapper_path_B_nested_spec (env : Env) (s : St) :
    (wrapper_path_B_nested env s).stack = s.stack ∧
    payload_stacks (wrapper_path_B_nested env s) = payload_stacks s ++ [s.stack ++
      [ Frame.wrapper_path_B_nested,
        Frame.wrapper_path_B_inner,
        Frame.execute_payload ]] ∧
    helper_calls (wrapper_path_B_nested env s) = helper_calls s := by
  simp [wrapper_path_B_nested, call, Frame.helper_depth?]

theorem wrapper_path_B_nested_extends {s t : St} (env : Env) (h : Extends s t) :
    Extends s (wrapper_path_B_nested env t) :=
  pop_extends (wrapper_path_B_inner_extends (aux_small_delay_extends env (push_extends _ h)))

@[simp]
theorem wrapper_path_C_level3_spec (s : St) :
    (wrapper_path_C_level3 s).stack = s.stack ∧
    payload_stacks (wrapper_path_C_level3 s) = payload_stacks s ++ [s.stack ++
      [ Frame.wrapper_path_C_level3,
        Frame.execute_payload ]] ∧
    helper_calls (wrapper_path_C_level3 s) = helper_calls s := by
  simp [wrapper_path_C_level3, call, Frame.helper_depth?]

theorem wrapper_path_C_level3_extends {s t : St} (h : Extends s t) :
    Extends s (wrapper_path_C_level3 t) :=
  pop_extends (execute_payload_extends (push_extends _ h))

@[simp]
theorem wrapper_path_C_level2_spec (s : St) :
    (wrapper_path_C_level2 s).stack = s.stack ∧
    payload_stacks (wrapper_path_C_level2 s) = payload_stacks s ++ [s.stack ++
      [ Frame.wrapper_path_C_level2,
        Frame.wrapper_path_C_level3,
        Frame.execute_payload ]] ∧
    helper_calls (wrapper_path_C_level2 s) = helper_calls s := by
  simp [wrapper_path_C_level2, call, Frame.helper_depth?]

theorem wrapper_path_C_level2_extends {s t : St} (h : Extends s t) :
    Extends s (wrapper_path_C_level2 t) :=
  pop_extends (wrapper_path_C_level3_extends (aux_query_perf_extends (push_extends _ h)))

@[simp]
theorem wrapper_path_C_deep_spec (env : Env) (s : St) :
    (wrapper_path_C_deep env s).stack = s.stack ∧
    payload_stacks (wrapper_path_C_deep env s) = payload_stacks s ++ [s.stack ++
      [ Frame.wrapper_path_C_deep,
        Frame.wrapper_path_C_level2,
        Frame.wrapper_path_C_level3,
        Frame.execute_payload ]] ∧
    helper_calls (wrapper_path_C_deep env s) = helper_calls s := by
  simp [wrapper_path_C_deep, call, Frame.helper_depth?]

theorem wrapper_path_C_deep_extends {s t : St} (env : Env) (h : Extends s t) :
    Extends s (wrapper_path_C_deep env t) :=
  pop_extends (wrapper_path_C_level2_extends (aux_heap_operation_extends env (push_extends _ h)))

@[simp]
theorem wrapper_path_D_indirect_spec (env : Env) (s : St) :
    (wrapper_path_D_indirect env s).stack = s.stack ∧
    payload_stacks (wrapper_path_D_indirect env s) = payload_stacks s ++ [s.stack ++
      [ Frame.wrapper_path_D_indirect,
        Frame.execute_payload ]] ∧
    helper_calls (wrapper_path_D_indirect env s) = helper_calls s := by
  simp [wrapper_path_D_indirect, call, Frame.helper_depth?]

theorem wrapper_path_D_indirect_extends {s t : St} (env : Env) (h : Extends s t) :
    Extends s (wrapper_path_D_indirect env t) :=
  pop_extends (execute_payload_extends (aux_get_time_extends (push_extends _ h)))

@[simp]
theorem wrapper_path_F_heavy_spec (env : Env) (s : St) :
    (wrapper_path_F_heavy env s).stack = s.stack ∧
    payload_stacks (wrapper_path_F_heavy env s) = payload_stacks s ++ [s.stack ++
      [ Frame.wrapper_path_F_heavy,
        Frame.execute_payload ]] ∧
    helper_calls (wrapper_path_F_heavy env s) = helper_calls s := by
  simp [wrapper_path_F_heavy, call, Frame.helper_depth?]

theorem wrapper_path_F_heavy_extends {s t : St} (env : Env) (h : Extends s t) :
    Extends s (wrapper_path_F_heavy env t) :=
  pop_extends (execute_payload_extends (aux_small_delay_extends env (aux_query_perf_extends (aux_heap_operation_extends env (aux_get_time_extends (aux_thread_info_extends (push_extends _ h)))))))

@[simp]
theorem wrapper_path_G_virtual_spec (env : Env) (s : St) :
    (wrapper_path_G_virtual env s).stack = s.stack ∧
    payload_stacks (wrapper_path_G_virtual env s) = payload_stacks s ++ [s.stack ++
      [ Frame.wrapper_path_G_virtual,
        Frame.execute_payload ]] ∧
    helper_calls (wrapper_path_G_virtual env s) = helper_calls s := by
  simp [wrapper_path_G_virtual, call, Frame.helper_depth?]

theorem wrapper_path_G_virtual_extends {s t : St} (env : Env) (h : Extends s t) :
    Extends s (wrapper_path_G_virtual env t) :=
  pop_extends (execute_payload_extends (aux_heap_operation_extends env (release_if_extends _ (alloc_extends _ (push_extends _ h)))))

@[simp]
theorem wrapper_path_H_level5_spec (s : St) :
    (wrapper_path_H_level5 s).stack = s.stack ∧
    payload_stacks (wrapper_path_H_level5 s) = payload_stacks s ++ [s.stack ++
      [ Frame.wrapper_path_H_level5,
        Frame.execute_payload ]] ∧
    helper_calls (wrapper_path_H_level5 s) = helper_calls s := by
  simp [wrapper_path_H_level5, call, Frame.helper_depth?]

theorem wrapper_path_H_level5_extends {s t : St} (h : Extends s t) :
    Extends s (wrapper_path_H_level5 t) :=
  pop_extends (execute_payload_extends (aux_thread_info_extends (push_extends _ h)))

@[simp]
theorem wrapper_path_H_level4_spec (s : St) :
    (wrapper_path_H_level4 s).stack = s.stack ∧
    payload_stacks (wrapper_path_H_level4 s) = payload_stacks s ++ [s.stack ++
      [ Frame.wrapper_path_H_level4,
        Frame.wrapper_path_H_level5,
        Frame.execute_payload ]] ∧
    helper_calls (wrapper_path_H_level4 s) = helper_calls s := by
  simp [wrapper_path_H_level4, call, Frame.helper_depth?]

theorem wrapper_path_H_level4_extends {s t : St} (h : Extends s t) :
    Extends s (wrapper_path_H_level4 t) :=
  pop_extends (wrapper_path_H_level5_extends (aux_query_perf_extends (push_extends _ h)))

@[simp]
theorem wrapper_path_H_level3_spec (env : Env) (s : St) :
    (wrapper_path_H_level3 env s).stack = s.stack ∧
    payload_stacks (wrapper_path_H_level3 env s) = payload_stacks s ++ [s.stack ++
      [ Frame.wrapper_path_H_level3,
        Frame.wrapper_path_H_level4,
        Frame.wrapper_path_H_level5,
        Frame.execute_payload ]] ∧
    helper_calls (wrapper_path_H_level3 env s) = helper_calls s := by
  simp [wrapper_path_H_level3, call, Frame.helper_depth?]

theorem wrapper_path_H_level3_extends {s t : St} (env : Env) (h : Extends s t) :
    Extends s (wrapper_path_H_level3 env t) :=
  pop_extends (wrapper_path_H_level4_extends (aux_heap_operation_extends env (push_extends _ h)))

@[simp]
theorem wrapper_path_H_level2_spec (env : Env) (s : St) :
    (wrapper_path_H_level2 env s).stack = s.stack ∧
    payload_stacks (wrapper_path_H_level2 env s) = payload_stacks s ++ [s.stack ++
      [ Frame.wrapper_path_H_level2,
        Frame.wrapper_path_H_level3,
        Frame.wrapper_path_H_level4,
        Frame.wrapper_path_H_level5,
        Frame.execute_payload ]] ∧
    helper_calls (wrapper_path_H_level2 env s) = helper_calls s := by
  simp [wrapper_path_H_level2, call, Frame.helper_depth?]

theorem wrapper_path_H_level2_extends {s t : St} (env : Env) (h : Extends s t) :
    Extends s (wrapper_path_H_level2 env t) :=
  pop_extends (wrapper_path_H_level3_extends env (aux_get_time_extends (push_extends _ h)))

@[simp]
theorem wrapper_path_H_level1_spec (env : Env) (s : St) :
    (wrapper_path_H_level1 env s).stack = s.stack ∧
    payload_stacks (wrapper_path_H_level1 env s) = payload_stacks s ++ [s.stack ++
      [ Frame.wrapper_path_H_level1,
        Frame.wrapper_path_H_level2,
        Frame.wrapper_path_H_level3,
        Frame.wrapper_path_H_level4,
        Frame.wrapper_path_H_level5,
        Frame.execute_payload ]] ∧
    helper_calls (wrapper_path_H_level1 env s) = helper_calls s := by
  simp [wrapper_path_H_level1, call, Frame.helper_depth?]

theorem wrapper_path_H_level1_extends {s t : St} (env : Env) (h : Extends s t) :
    Extends s (wrapper_path_H_level1 env t) :=
  pop_extends (wrapper_path_H_level2_extends env (aux_small_delay_extends env (push_extends _ h)))

@[simp]
theorem wrapper_path_H_tower_spec (env : Env) (s : St) :
    (wrapper_path_H_tower env s).stack = s.stack ∧
    payload_stacks (wrapper_path_H_tower env s) = payload_stacks s ++ [s.stack ++
      [ Frame.wrapper_path_H_tower,
        Frame.wrapper_path_H_level1,
        Frame.wrapper_path_H_level2,
        Frame.wrapper_path_H_level3,
        Frame.wrapper_path_H_level4,
        Frame.wrapper_path_H_level5,
        Frame.execute_payload ]] ∧
    helper_calls (wrapper_path_H_tower env s) = helper_calls s := by
  simp [wrapper_path_H_tower, call, Frame.helper_depth?]

theorem wrapper_path_H_tower_extends {s t : St} (env : Env) (h : Extends s t) :
    Extends s (wrapper_path_H_tower env t) :=
  pop_extends (wrapper_path_H_level1_extends env (push_extends _ h))

@[simp]
theorem wrapper_path_I_level6_spec (s : St) :
    (wrapper_path_I_level6 s).stack = s.stack ∧
    payload_stacks (wrapper_path_I_level6 s) = payload_stacks s ++ [s.stack ++
      [ Frame.wrapper_path_I_level6,
        Frame.execute_payload ]] ∧
    helper_calls (wrapper_path_I_level6 s) = helper_calls s := by
  simp [wrapper_path_I_level6, call, Frame.helper_depth?]

theorem wrapper_path_I_level6_extends {s t : St} (h : Extends s t) :
    Extends s (wrapper_path_I_level6 t) :=
  pop_extends (execute_payload_extends (push_extends _ h))

@[simp]
theorem wrapper_path_I_level5_spec (env : Env) (s : St) :
    (wrapper_path_I_level5 env s).stack = s.stack ∧
    payload_stacks (wrapper_path_I_level5 env s) = payload_stacks s ++ [s.stack ++
      [ Frame.wrapper_path_I_level5,
        Frame.wrapper_path_I_level6,
        Frame.execute_payload ]] ∧
    helper_calls (wrapper_path_I_level5 env s) = helper_calls s := by
  simp [wrapper_path_I_level5, call, Frame.helper_depth?]

theorem wrapper_path_I_level5_extends {s t : St} (env : Env) (h : Extends s t) :
    Extends s (wrapper_path_I_level5 env t) :=
  pop_extends (release_if_extends _ (wrapper_path_I_level6_extends (alloc_extends _ (push_extends _ h))))

@[simp]
theorem wrapper_path_I_level4_spec (env : Env) (s : St) :
    (wrapper_path_I_level4 env s).stack = s.stack ∧
    payload_stacks (wrapper_path_I_level4 env s) = payload_stacks s ++ [s.stack ++
      [ Frame.wrapper_path_I_level4,
        Frame.wrapper_path_I_level5,
        Frame.wrapper_path_I_level6,
        Frame.execute_payload ]] ∧
    helper_calls (wrapper_path_I_level4 env s) = helper_calls s := by
  simp [wrapper_path_I_level4, call, Frame.helper_depth?]

theorem wrapper_path_I_level4_extends {s t : St} (env : Env) (h : Extends s t) :
    Extends s (wrapper_path_I_level4 env t) :=
  pop_extends (wrapper_path_I_level5_extends env (emit_extends _ (push_extends _ h)))

@[simp]
theorem wrapper_path_I_level3_spec (env : Env) (s : St) :
    (wrapper_path_I_level3 env s).stack = s.stack ∧
    payload_stacks (wrapper_path_I_level3 env s) = payload_stacks s ++ [s.stack ++
      [ Frame.wrapper_path_I_level3,
        Frame.wrapper_path_I_level4,
        Frame.wrapper_path_I_level5,
        Frame.wrapper_path_I_level6,
        Frame.execute_payload ]] ∧
    helper_calls (wrapper_path_I_level3 env s) = helper_calls s := by
  simp [wrapper_path_I_level3, call, Frame.helper_depth?]

theorem wrapper_path_I_level3_extends {s t : St} (env : Env) (h : Extends s t) :
    Extends s (wrapper_path_I_level3 env t) :=
  pop_extends (wrapper_path_I_level4_extends env (emit_extends _ (push_extends _ h)))

@[simp]
theorem wrapper_path_I_level2_spec (env : Env) (s : St) :
    (wrapper_path_I_level2 env s).stack = s.stack ∧
    payload_stacks (wrapper_path_I_level2 env s) = payload_stacks s ++ [s.stack ++
      [ Frame.wrapper_path_I_level2,
        Frame.wrapper_path_I_level3,
        Frame.wrapper_path_I_level4,
        Frame.wrapper_path_I_level5,
        Frame.wrapper_path_I_level6,
        Frame.execute_payload ]] ∧
    helper_calls (wrapper_path_I_level2 env s) = helper_calls s := by
  simp [wrapper_path_I_level2, call, Frame.helper_depth?]

theorem wrapper_path_I_level2_extends {s t : St} (env : Env) (h : Extends s t) :
    Extends s (wrapper_path_I_level2 env t) :=
  pop_extends (wrapper_path_I_level3_extends env (emit_extends _ (push_extends _ h)))

@[simp]
theorem wrapper_path_I_level1_spec (env : Env) (s : St) :
    (wrapper_path_I_level1 env s).stack = s.stack ∧
    payload_stacks (wrapper_path_I_level1 env s) = payload_stacks s ++ [s.stack ++
      [ Frame.wrapper_path_I_level1,
        Frame.wrapper_path_I_level2,
        Frame.wrapper_path_I_level3,
        Frame.wrapper_path_I_level4,
        Frame.wrapper_path_I_level5,
        Frame.wrapper_path_I_level6,
        Frame.execute_payload ]] ∧
    helper_calls (wrapper_path_I_level1 env s) = helper_calls s := by
  simp [wrapper_path_I_level1, call, Frame.helper_depth?]

theorem wrapper_path_I_level1_extends {s t : St} (env : Env) (h : Extends s t) :
    Extends s (wrapper_path_I_level1 env t) :=
  pop_extends (wrapper_path_I_level2_extends env (emit_extends _ (push_extends _ h)))

@[simp]
theorem wrapper_path_I_deep6_spec (env : Env) (s : St) :
    (wrapper_path_I_deep6 env s).stack = s.stack ∧
    payload_stacks (wrapper_path_I_deep6 env s) = payload_stacks s ++ [s.stack ++
      [ Frame.wrapper_path_I_deep6,
        Frame.wrapper_path_I_level1,
        Frame.wrapper_path_I_level2,
        Frame.wrapper_path_I_level3,
        Frame.wrapper_path_I_level4,
        Frame.wrapper_path_I_level5,
        Frame.wrapper_path_I_level6,
        Frame.execute_payload ]] ∧
    helper_calls (wrapper_path_I_deep6 env s) = helper_calls s := by
  simp [wrapper_path_I_deep6, call, Frame.helper_depth?]

theorem wrapper_path_I_deep6_extends {s t : St} (env : Env) (h : Extends s t) :
    Extends s (wrapper_path_I_deep6 env t) :=
  pop_extends (wrapper_path_I_level1_extends env (push_extends _ h))

@[simp]
theorem wrapper_path_J_final_spec (env : Env) (s : St) :
    (wrapper_path_J_final env s).stack = s.stack ∧
    payload_stacks (wrapper_path_J_final env s) = payload_stacks s ++ [s.stack ++
      [ Frame.wrapper_path_J_final,
        Frame.execute_payload ]] ∧
    helper_calls (wrapper_path_J_final env s) = helper_calls s := by
  simp [wrapper_path_J_final, call, Frame.helper_depth?]

theorem wrapper_path_J_final_extends {s t : St} (env : Env) (h : Extends s t) :
    Extends s (wrapper_path_J_final env t) :=
  pop_extends (execute_payload_extends (aux_heap_operation_extends env (push_extends _ h)))

@[simp]
theorem wrapper_path_J_link4_spec (env : Env) (s : St) :
    (wrapper_path_J_link4 env s).stack = s.stack ∧
    payload_stacks (wrapper_path_J_link4 env s) = payload_stacks s ++ [s.stack ++
      [ Frame.wrapper_path_J_link4,
        Frame.wrapper_path_J_final,
        Frame.execute_payload ]] ∧
    helper_calls (wrapper_path_J_link4 env s) = helper_calls s := by
  simp [wrapper_path_J_link4, call, Frame.helper_depth?]

theorem wrapper_path_J_link4_extends {s t : St} (env : Env) (h : Extends s t) :
    Extends s (wrapper_path_J_link4 env t) :=
  pop_extends (wrapper_path_J_final_extends env (aux_small_delay_extends env (push_extends _ h)))

@[simp]
theorem wrapper_path_J_link3_spec (env : Env) (s : St) :
    (wrapper_path_J_link3 env s).stack = s.stack ∧
    payload_stacks (wrapper_path_J_link3 env s) = payload_stacks s ++ [s.stack ++
      [ Frame.wrapper_path_J_link3,
        Frame.wrapper_path_J_link4,
        Frame.wrapper_path_J_final,
        Frame.execute_payload ]] ∧
    helper_calls (wrapper_path_J_link3 env s) = helper_calls s := by
  simp [wrapper_path_J_link3, call, Frame.helper_depth?]

theorem wrapper_path_J_link3_extends {s t : St} (env : Env) (h : Extends s t) :
    Extends s (wrapper_path_J_link3 env t) :=
  pop_extends (wrapper_path_J_link4_extends env (aux_query_perf_extends (push_extends _ h)))

@[simp]
theorem wrapper_path_J_link2_spec (env : Env) (s : St) :
    (wrapper_path_J_link2 env s).stack = s.stack ∧
    payload_stacks (wrapper_path_J_link2 env s) = payload_stacks s ++ [s.stack ++
      [ Frame.wrapper_path_J_link2,
        Frame.wrapper_path_J_link3,
        Frame.wrapper_path_J_link4,
        Frame.wrapper_path_J_final,
        Frame.execute_payload ]] ∧
    helper_calls (wrapper_path_J_link2 env s) = helper_calls s := by
  simp [wrapper_path_J_link2, call, Frame.helper_depth?]

theorem wrapper_path_J_link2_extends {s t : St} (env : Env) (h : Extends s t) :
    Extends s (wrapper_path_J_link2 env t) :=
  pop_extends (wrapper_path_J_link3_extends env (aux_get_time_extends (push_extends _ h)))

@[simp]
theorem wrapper_path_J_link1_spec (env : Env) (s : St) :
    (wrapper_path_J_link1 env s).stack = s.stack ∧
    payload_stacks (wrapper_path_J_link1 env s) = payload_stacks s ++ [s.stack ++
      [ Frame.wrapper_path_J_link1,
        Frame.wrapper_path_J_link2,
        Frame.wrapper_path_J_link3,
        Frame.wrapper_path_J_link4,
        Frame.wrapper_path_J_final,
        Frame.execute_payload ]] ∧
    helper_calls (wrapper_path_J_link1 env s) = helper_calls s := by
  simp [wrapper_path_J_link1, call, Frame.helper_depth?]

theorem wrapper_path_J_link1_extends {s t : St} (env : Env) (h : Extends s t) :
    Extends s (wrapper_path_J_link1 env t) :=
  pop_extends (wrapper_path_J_link2_extends env (aux_thread_info_extends (push_extends _ h)))

@[simp]
theorem wrapper_path_J_chain_spec (env : Env) (s : St) :
    (wrapper_path_J_chain env s).stack = s.stack ∧
    payload_stacks (wrapper_path_J_chain env s) = payload_stacks s ++ [s.stack ++
      [ Frame.wrapper_path_J_chain,
        Frame.wrapper_path_J_link1,
        Frame.wrapper_path_J_link2,
        Frame.wrapper_path_J_link3,
        Frame.wrapper_path_J_link4,
        Frame.wrapper_path_J_final,
        Frame.execute_payload ]] ∧
    helper_calls (wrapper_path_J_chain env s) = helper_calls s := by
  simp [wrapper_path_J_chain, call, Frame.helper_depth?]

theorem wrapper_path_J_chain_extends {s t : St} (env : Env) (h : Extends s t) :
    Extends s (wrapper_path_J_chain env t) :=
  pop_extends (wrapper_path_J_link1_extends env (push_extends _ h))

@[simp]
theorem wrapper_path_K_nested_inner_spec (s : St) :
    (wrapper_path_K_nested_inner s).stack = s.stack ∧
    payload_stacks (wrapper_path_K_nested_inner s) = payload_stacks s ++ [s.stack ++
      [ Frame.wrapper_path_K_nested_inner,
        Frame.execute_payload ]] ∧
    helper_calls (wrapper_path_K_nested_inner s) = helper_calls s := by
  simp [wrapper_path_K_nested_inner, call, Frame.helper_depth?]

theorem wrapper_path_K_nested_inner_extends {s t : St} (h : Extends s t) :
    Extends s (wrapper_path_K_nested_inner t) :=
  pop_extends (execute_payload_extends (aux_get_time_extends (push_extends _ h)))

@[simp]
theorem wrapper_path_K_nested_outer_spec (env : Env) (s : St) :
    (wrapper_path_K_nested_outer env s).stack = s.stack ∧
    payload_stacks (wrapper_path_K_nested_outer env s) = payload_stacks s ++ [s.stack ++
      [ Frame.wrapper_path_K_nested_outer,
        Frame.wrapper_path_K_nested_inner,
        Frame.execute_payload ]] ∧
    helper_calls (wrapper_path_K_nested_outer env s) = helper_calls s := by
  simp [wrapper_path_K_nested_outer, call, Frame.helper_depth?]

theorem wrapper_path_K_nested_outer_extends {s t : St} (env : Env) (h : Extends s t) :
    Extends s (wrapper_path_K_nested_outer env t) :=
  pop_extends (wrapper_path_K_nested_inner_extends (aux_heap_operation_extends env (push_extends _ h)))

@[simp]
theorem wrapper_path_L_level7_spec (s : St) :
    (wrapper_path_L_level7 s).stack = s.stack ∧
    payload_stacks (wrapper_path_L_level7 s) = payload_stacks s ++ [s.stack ++
      [ Frame.wrapper_path_L_level7,
        Frame.execute_payload ]] ∧
    helper_calls (wrapper_path_L_level7 s) = helper_calls s := by
  simp [wrapper_path_L_level7, call, Frame.helper_depth?]

theorem wrapper_path_L_level7_extends {s t : St} (h : Extends s t) :
    Extends s (wrapper_path_L_level7 t) :=
  pop_extends (execute_payload_extends (push_extends _ h))

@[simp]
theorem wrapper_path_L_level6_spec (s : St) :
    (wrapper_path_L_level6 s).stack = s.stack ∧
    payload_stacks (wrapper_path_L_level6 s) = payload_stacks s ++ [s.stack ++
      [ Frame.wrapper_path_L_level6,
        Frame.wrapper_path_L_level7,
        Frame.execute_payload ]] ∧
    helper_calls (wrapper_path_L_level6 s) = helper_calls s := by
  simp [wrapper_path_L_level6, call, Frame.helper_depth?]

theorem wrapper_path_L_level6_extends {s t : St} (h : Extends s t) :
    Extends s (wrapper_path_L_level6 t) :=
  pop_extends (wrapper_path_L_level7_extends (emit_extends _ (push_extends _ h)))

@[simp]
theorem wrapper_path_L_level5_spec (s : St) :
    (wrapper_path_L_level5 s).stack = s.stack ∧
    payload_stacks (wrapper_path_L_level5 s) = payload_stacks s ++ [s.stack ++
      [ Frame.wrapper_path_L_level5,
        Frame.wrapper_path_L_level6,
        Frame.wrapper_path_L_level7,
        Frame.execute_payload ]] ∧
    helper_calls (wrapper_path_L_level5 s) = helper_calls s := by
  simp [wrapper_path_L_level5, call, Frame.helper_depth?]

theorem wrapper_path_L_level5_extends {s t : St} (h : Extends s t) :
    Extends s (wrapper_path_L_level5 t) :=
  pop_extends (wrapper_path_L_level6_extends (emit_extends _ (push_extends _ h)))

@[simp]
theorem wrapper_path_L_level4_spec (s : St) :
    (wrapper_path_L_level4 s).stack = s.stack ∧
    payload_stacks (wrapper_path_L_level4 s) = payload_stacks s ++ [s.stack ++
      [ Frame.wrapper_path_L_level4,
        Frame.wrapper_path_L_level5,
        Frame.wrapper_path_L_level6,
        Frame.wrapper_path_L_level7,
        Frame.execute_payload ]] ∧
    helper_calls (wrapper_path_L_level4 s) = helper_calls s := by
  simp [wrapper_path_L_level4, call, Frame.helper_depth?]

theorem wrapper_path_L_level4_extends {s t : St} (h : Extends s t) :
    Extends s (wrapper_path_L_level4 t) :=
  pop_extends (wrapper_path_L_level5_extends (emit_extends _ (push_extends _ h)))

@[simp]
theorem wrapper_path_L_level3_spec (s : St) :
    (wrapper_path_L_level3 s).stack = s.stack ∧
    payload_stacks (wrapper_path_L_level3 s) = payload_stacks s ++ [s.stack ++
      [ Frame.wrapper_path_L_level3,
        Frame.wrapper_path_L_level4,
        Frame.wrapper_path_L_level5,
        Frame.wrapper_path_L_level6,
        Frame.wrapper_path_L_level7,
        Frame.execute_payload ]] ∧
    helper_calls (wrapper_path_L_level3 s) = helper_calls s := by
  simp [wrapper_path_L_level3, call, Frame.helper_depth?]

theorem wrapper_path_L_level3_extends {s t : St} (h : Extends s t) :
    Extends s (wrapper_path_L_level3 t) :=
  pop_extends (wrapper_path_L_level4_extends (emit_extends _ (push_extends _ h)))

@[simp]
theorem wrapper_path_L_level2_spec (s : St) :
    (wrapper_path_L_level2 s).stack = s.stack ∧
    payload_stacks (wrapper_path_L_level2 s) = payload_stacks s ++ [s.stack ++
      [ Frame.wrapper_path_L_level2,
        Frame.wrapper_path_L_level3,
        Frame.wrapper_path_L_level4,
        Frame.wrapper_path_L_level5,
        Frame.wrapper_path_L_level6,
        Frame.wrapper_path_L_level7,
        Frame.execute_payload ]] ∧
    helper_calls (wrapper_path_L_level2 s) = helper_calls s := by
  simp [wrapper_path_L_level2, call, Frame.helper_depth?]

theorem wrapper_path_L_level2_extends {s t : St} (h : Extends s t) :
    Extends s (wrapper_path_L_level2 t) :=
  pop_extends (wrapper_path_L_level3_extends (emit_extends _ (push_extends _ h)))

@[simp]
theorem wrapper_path_L_level1_spec (s : St) :
    (wrapper_path_L_level1 s).stack = s.stack ∧
    payload_stacks (wrapper_path_L_level1 s) = payload_stacks s ++ [s.stack ++
      [ Frame.wrapper_path_L_level1,
        Frame.wrapper_path_L_level2,
        Frame.wrapper_path_L_level3,
        Frame.wrapper_path_L_level4,
        Frame.wrapper_path_L_level5,
        Frame.wrapper_path_L_level6,
        Frame.wrapper_path_L_level7,
        Frame.execute_payload ]] ∧
    helper_calls (wrapper_path_L_level1 s) = helper_calls s := by
  simp [wrapper_path_L_level1, call, Frame.helper_depth?]

theorem wrapper_path_L_level1_extends {s t : St} (h : Extends s t) :
    Extends s (wrapper_path_L_level1 t) :=
  pop_extends (wrapper_path_L_level2_extends (aux_thread_info_extends (push_extends _ h)))

@[simp]
theorem wrapper_path_L_staircase_spec (env : Env) (s : St) :
    (wrapper_path_L_staircase env s).stack = s.stack ∧
    payload_stacks (wrapper_path_L_staircase env s) = payload_stacks s ++ [s.stack ++
      [ Frame.wrapper_path_L_staircase,
        Frame.wrapper_path_L_level1,
        Frame.wrapper_path_L_level2,
        Frame.wrapper_path_L_level3,
        Frame.wrapper_path_L_level4,
        Frame.wrapper_path_L_level5,
        Frame.wrapper_path_L_level6,
        Frame.wrapper_path_L_level7,
        Frame.execute_payload ]] ∧
    helper_calls (wrapper_path_L_staircase env s) = helper_calls s := by
  simp [wrapper_path_L_staircase, call, Frame.helper_depth?]

theorem wrapper_path_L_staircase_extends {s t : St} (env : Env) (h : Extends s t) :
    Extends s (wrapper_path_L_staircase env t) :=
  pop_extends (wrapper_path_L_level1_extends (push_extends _ h))

@[simp]
theorem wrapper_path_M_terminus_alpha_spec (s : St) :
    (wrapper_path_M_terminus_alpha s).stack = s.stack ∧
    payload_stacks (wrapper_path_M_terminus_alpha s) = payload_stacks s ++ [s.stack ++
      [ Frame.wrapper_path_M_terminus_alpha,
        Frame.execute_payload ]] ∧
    helper_calls (wrapper_path_M_terminus_alpha s) = helper_calls s := by
  simp [wrapper_path_M_terminus_alpha, call, Frame.helper_depth?]

theorem wrapper_path_M_terminus_alpha_extends {s t : St} (h : Extends s t) :
    Extends s (wrapper_path_M_terminus_alpha t) :=
  pop_extends (execute_payload_extends (aux_get_time_extends (push_extends _ h)))

@[simp]
theorem wrapper_path_M_terminus_beta_spec (s : St) :
    (wrapper_path_M_terminus_beta s).stack = s.stack ∧
    payload_stacks (wrapper_path_M_terminus_beta s) = payload_stacks s ++ [s.stack ++
      [ Frame.wrapper_path_M_terminus_beta,
        Frame.execute_payload ]] ∧
    helper_calls (wrapper_path_M_terminus_beta s) = helper_calls s := by
  simp [wrapper_path_M_terminus_beta, call, Frame.helper_depth?]

theorem wrapper_path_M_terminus_beta_extends {s t : St} (h : Extends s t) :
    Extends s (wrapper_path_M_terminus_beta t) :=
  pop_extends (execute_payload_extends (aux_query_perf_extends (push_extends _ h)))

/-! ## The recursive helpers -/

theorem countdown_length (n : Nat) : (countdown n).length = n + 1 := by
  induction n with
  | zero => rfl
  | succ k ih => simp [countdown, ih]

theorem wrapper_path_E_recursive_unfold (env : Env) (depth : Int) (s : St) :
    wrapper_path_E_recursive env depth s =
      pop (if depth ≤ 0 then
          execute_payload (aux_thread_info (push (Frame.wrapper_path_E_recursive depth) s))
        else
          wrapper_path_E_recursive env (depth - 1)
            (aux_small_delay env (push (Frame.wrapper_path_E_recursive depth) s))) := by
  rw [wrapper_path_E_recursive]
  simp only [call]
  split <;> rfl

theorem wrapper_path_K_recursive_unfold (env : Env) (depth : Int) (s : St) :
    wrapper_path_K_recursive env depth s =
      pop (if depth ≤ 0 then
          wrapper_path_K_nested_outer env
            (aux_small_delay env (push (Frame.wrapper_path_K_recursive depth) s))
        else
          wrapper_path_K_recursive env (depth - 1)
            (aux_small_delay env (push (Frame.wrapper_path_K_recursive depth) s))) := by
  rw [wrapper_path_K_recursive]
  simp only [call]
  split <;> rfl

/-- A call of `wrapper_path_E_recursive` with a depth `n ≥ 0` returns on the stack
it was called on, after one payload execution reached through the frames of depth
`n, n-1, ..., 0`. -/
theorem wrapper_path_E_recursive_nonneg (env : Env) (n : Nat) (s : St) :
    (wrapper_path_E_recursive env n s).stack = s.stack ∧
    payload_stacks (wrapper_path_E_recursive env n s) = payload_stacks s ++ [s.stack ++
      (countdown n).map Frame.wrapper_path_E_recursive ++ [Frame.execute_payload]] ∧
    helper_calls (wrapper_path_E_recursive env n s) = helper_calls s ++ countdown n := by
  induction n generalizing s with
  | zero =>
    rw [wrapper_path_E_recursive_unfold]
    simp [countdown, Frame.helper_depth?]
  | succ k ih =>
    rw [wrapper_path_E_recursive_unfold]
    have hk : ¬ ((k : Int) + 1 ≤ 0) := by omega
    have hk1 : ((k : Int) + 1 - 1) = k := by omega
    simp [hk, hk1, ih, countdown, Frame.helper_depth?]

/-- A call of `wrapper_path_E_recursive` with a depth `≤ 0` calls the payload
itself and does not recurse. -/
theorem wrapper_path_E_recursive_nonpos (env : Env) (depth : Int) (h : depth ≤ 0) (s : St) :
    (wrapper_path_E_recursive env depth s).stack = s.stack ∧
    payload_stacks (wrapper_path_E_recursive env depth s) = payload_stacks s ++ [s.stack ++
      [Frame.wrapper_path_E_recursive depth, Frame.execute_payload]] ∧
    helper_calls (wrapper_path_E_recursive env depth s) = helper_calls s ++ [depth] := by
  rw [wrapper_path_E_recursive_unfold]
  simp [h, Frame.helper_depth?]

/-- The same for `wrapper_path_K_recursive`, whose innermost invocation goes on
through the two nested functions. -/
theorem wrapper_path_K_recursive_nonneg (env : Env) (n : Nat) (s : St) :
    (wrapper_path_K_recursive env n s).stack = s.stack ∧
    payload_stacks (wrapper_path_K_recursive env n s) = payload_stacks s ++ [s.stack ++
      (countdown n).map Frame.wrapper_path_K_recursive ++
      [Frame.wrapper_path_K_nested_outer, Frame.wrapper_path_K_nested_inner,
        Frame.execute_payload]] ∧
    helper_calls (wrapper_path_K_recursive env n s) = helper_calls s ++ countdown n := by
  induction n generalizing s with
  | zero =>
    rw [wrapper_path_K_recursive_unfold]
    simp [countdown, Frame.helper_depth?]
  | succ k ih =>
    rw [wrapper_path_K_recursive_unfold]
    have hk : ¬ ((k : Int) + 1 ≤ 0) := by omega
    have hk1 : ((k : Int) + 1 - 1) = k := by omega
    simp [hk, hk1, ih, countdown, Frame.helper_depth?]

theorem wrapper_path_K_recursive_nonpos (env : Env) (depth : Int) (h : depth ≤ 0) (s : St) :
    (wrapper_path_K_recursive env depth s).stack = s.stack ∧
    payload_stacks (wrapper_path_K_recursive env depth s) = payload_stacks s ++ [s.stack ++
      [Frame.wrapper_path_K_recursive depth, Frame.wrapper_path_K_nested_outer,
        Frame.wrapper_path_K_nested_inner, Frame.execute_payload]] ∧
    helper_calls (wrapper_path_K_recursive env depth s) = helper_calls s ++ [depth] := by
  rw [wrapper_path_K_recursive_unfold]
  simp [h, Frame.helper_depth?]

theorem wrapper_path_E_recursive_extends_nat (env : Env) (n : Nat) :
    ∀ (depth : Int) {s t : St}, depth.toNat = n → Extends s t →
      Extends s (wrapper_path_E_recursive env depth t) := by
  induction n with
  | zero =>
    intro depth s t hd h
    rw [wrapper_path_E_recursive_unfold]
    have h0 : depth ≤ 0 := by omega
    simp only [h0, if_true]
    exact pop_extends (execute_payload_extends (aux_thread_info_extends (push_extends _ h)))
  | succ k ih =>
    intro depth s t hd h
    rw [wrapper_path_E_recursive_unfold]
    have h0 : ¬ depth ≤ 0 := by omega
    simp only [h0, if_false]
    exact pop_extends (ih (depth - 1) (by omega) (aux_small_delay_extends env (push_extends _ h)))

theorem wrapper_path_E_recursive_extends {s t : St} (env : Env) (depth : Int)
    (h : Extends s t) : Extends s (wrapper_path_E_recursive env depth t) :=
  wrapper_path_E_recursive_extends_nat env depth.toNat depth rfl h

theorem wrapper_path_K_recursive_extends_nat (env : Env) (n : Nat) :
    ∀ (depth : Int) {s t : St}, depth.toNat = n → Extends s t →
      Extends s (wrapper_path_K_recursive env depth t) := by
  induction n with
  | zero =>
    intro depth s t hd h
    rw [wrapper_path_K_recursive_unfold]
    have h0 : depth ≤ 0 := by omega
    simp only [h0, if_true]
    exact pop_extends (wrapper_path_K_nested_outer_extends env
      (aux_small_delay_extends env (push_extends _ h)))
  | succ k ih =>
    intro depth s t hd h
    rw [wrapper_path_K_recursive_unfold]
    have h0 : ¬ depth ≤ 0 := by omega
    simp only [h0, if_false]
    exact pop_extends (ih (depth - 1) (by omega) (aux_small_delay_extends env (push_extends _ h)))

theorem wrapper_path_K_recursive_extends {s t : St} (env : Env) (depth : Int)
    (h : Extends s t) : Extends s (wrapper_path_K_recursive env depth t) :=
  wrapper_path_K_recursive_extends_nat env depth.toNat depth rfl h

/-! ## Paths E and K -/

theorem E_depth_natCast (n : Nat) : E_depth n = ((n % 3 + 1 : Nat) : Int) := by
  simp [E_depth, Int.tmod_eq_emod]

theorem K_depth_natCast (n : Nat) : K_depth n = ((n % 4 + 1 : Nat) : Int) := by
  simp [K_depth, Int.tmod_eq_emod]

@[simp]
theorem wrapper_path_E_entry_spec (env : Env) (s : St) :
    (wrapper_path_E_entry env s).stack = s.stack ∧
    payload_stacks (wrapper_path_E_entry env s) = payload_stacks s ++ [s.stack ++
      Frame.wrapper_path_E_entry ::
        ((countdown (env.gen s.seed s.drawn % 3 + 1)).map Frame.wrapper_path_E_recursive ++
          [Frame.execute_payload])] ∧
    helper_calls (wrapper_path_E_entry env s) =
      helper_calls s ++ countdown (env.gen s.seed s.drawn % 3 + 1) := by
  simp only [wrapper_path_E_entry, call, rand_spec, E_depth_natCast, pop_spec,
    wrapper_path_E_recursive_nonneg, push_spec]
  simp [Frame.helper_depth?]

theorem wrapper_path_E_entry_extends {s t : St} (env : Env) (h : Extends s t) :
    Extends s (wrapper_path_E_entry env t) :=
  pop_extends (wrapper_path_E_recursive_extends env _ (rand_extends _ (push_extends _ h)))

@[simp]
theorem wrapper_path_K_mixed_spec (env : Env) (s : St) :
    (wrapper_path_K_mixed env s).stack = s.stack ∧
    payload_stacks (wrapper_path_K_mixed env s) = payload_stacks s ++ [s.stack ++
      Frame.wrapper_path_K_mixed ::
        ((countdown (env.gen s.seed s.drawn % 4 + 1)).map Frame.wrapper_path_K_recursive ++
          [Frame.wrapper_path_K_nested_outer, Frame.wrapper_path_K_nested_inner,
            Frame.execute_payload])] ∧
    helper_calls (wrapper_path_K_mixed env s) =
      helper_calls s ++ countdown (env.gen s.seed s.drawn % 4 + 1) := by
  simp only [wrapper_path_K_mixed, call, rand_spec, K_depth_natCast, pop_spec,
    wrapper_path_K_recursive_nonneg, push_spec]
  simp [Frame.helper_depth?]

theorem wrapper_path_K_mixed_extends {s t : St} (env : Env) (h : Extends s t) :
    Extends s (wrapper_path_K_mixed env t) :=
  pop_extends (wrapper_path_K_recursive_extends env _ (rand_extends _ (push_extends _ h)))

/-! ## Path M -/

@[simp]
theorem wrapper_path_M_branch_level4_spec (env : Env) (s : St) :
    (wrapper_path_M_branch_level4 env s).stack = s.stack ∧
    payload_stacks (wrapper_path_M_branch_level4 env s) = payload_stacks s ++ [s.stack ++
      [ Frame.wrapper_path_M_branch_level4,
        M_terminus (env.gen s.seed s.drawn),
        Frame.execute_payload ]] := by
  by_cases h : Int.tmod (env.gen s.seed s.drawn) 2 = 0 <;>
    simp [wrapper_path_M_branch_level4, call, M_terminus, h]

theorem wrapper_path_M_branch_level4_extends {s t : St} (env : Env) (h : Extends s t) :
    Extends s (wrapper_path_M_branch_level4 env t) :=
  pop_extends (ite_extends
    (wrapper_path_M_terminus_alpha_extends (rand_extends _ (push_extends _ h)))
    (wrapper_path_M_terminus_beta_extends (rand_extends _ (push_extends _ h))))

@[simp]
theorem wrapper_path_M_level3_spec (env : Env) (s : St) :
    (wrapper_path_M_level3 env s).stack = s.stack ∧
    payload_stacks (wrapper_path_M_level3 env s) = payload_stacks s ++ [s.stack ++
      [ Frame.wrapper_path_M_level3,
        Frame.wrapper_path_M_branch_level4,
        M_terminus (env.gen s.seed s.drawn),
        Frame.execute_payload ]] := by
  simp [wrapper_path_M_level3, call]

theorem wrapper_path_M_level3_extends {s t : St} (env : Env) (h : Extends s t) :
    Extends s (wrapper_path_M_level3 env t) :=
  pop_extends (wrapper_path_M_branch_level4_extends env
    (aux_heap_operation_extends env (push_extends _ h)))

@[simp]
theorem wrapper_path_M_level2_left_spec (env : Env) (s : St) :
    (wrapper_path_M_level2_left env s).stack = s.stack ∧
    payload_stacks (wrapper_path_M_level2_left env s) = payload_stacks s ++ [s.stack ++
      [ Frame.wrapper_path_M_level2_left,
        Frame.wrapper_path_M_level3,
        Frame.wrapper_path_M_branch_level4,
        M_terminus (env.gen s.seed (s.drawn + 1)),
        Frame.execute_payload ]] := by
  simp [wrapper_path_M_level2_left, call]

theorem wrapper_path_M_level2_left_extends {s t : St} (env : Env) (h : Extends s t) :
    Extends s (wrapper_path_M_level2_left env t) :=
  pop_extends (wrapper_path_M_level3_extends env
    (aux_small_delay_extends env (push_extends _ h)))

@[simp]
theorem wrapper_path_M_level2_right_spec (env : Env) (s : St) :
    (wrapper_path_M_level2_right env s).stack = s.stack ∧
    payload_stacks (wrapper_path_M_level2_right env s) = payload_stacks s ++ [s.stack ++
      [ Frame.wrapper_path_M_level2_right,
        Frame.wrapper_path_M_level3,
        Frame.wrapper_path_M_branch_level4,
        M_terminus (env.gen s.seed s.drawn),
        Frame.execute_payload ]] := by
  simp [wrapper_path_M_level2_right, call]

theorem wrapper_path_M_level2_right_extends {s t : St} (env : Env) (h : Extends s t) :
    Extends s (wrapper_path_M_level2_right env t) :=
  pop_extends (wrapper_path_M_level3_extends env
    (aux_thread_info_extends (push_extends _ h)))

@[simp]
theorem wrapper_path_M_level1_spec (env : Env) (s : St) :
    (wrapper_path_M_level1 env s).stack = s.stack ∧
    payload_stacks (wrapper_path_M_level1 env s) = payload_stacks s ++ [s.stack ++
      [ Frame.wrapper_path_M_level1,
        M_side (env.gen s.seed s.drawn),
        Frame.wrapper_path_M_level3,
        Frame.wrapper_path_M_branch_level4,
        M_terminus (env.gen s.seed (M_second_draw (env.gen s.seed s.drawn) s.drawn)),
        Frame.execute_payload ]] := by
  by_cases h : Int.tmod (env.gen s.seed s.drawn) 2 = 0 <;>
    simp [wrapper_path_M_level1, call, M_side, M_second_draw, h, Nat.add_assoc]

theorem wrapper_path_M_level1_extends {s t : St} (env : Env) (h : Extends s t) :
    Extends s (wrapper_path_M_level1 env t) :=
  pop_extends (ite_extends
    (wrapper_path_M_level2_left_extends env (rand_extends _ (push_extends _ h)))
    (wrapper_path_M_level2_right_extends env (rand_extends _ (push_extends _ h))))

@[simp]
theorem wrapper_path_M_branching_spec (env : Env) (s : St) :
    (wrapper_path_M_branching env s).stack = s.stack ∧
    payload_stacks (wrapper_path_M_branching env s) = payload_stacks s ++ [s.stack ++
      [ Frame.wrapper_path_M_branching,
        Frame.wrapper_path_M_level1,
        M_side (env.gen s.seed s.drawn),
        Frame.wrapper_path_M_level3,
        Frame.wrapper_path_M_branch_level4,
        M_terminus (env.gen s.seed (M_second_draw (env.gen s.seed s.drawn) s.drawn)),
        Frame.execute_payload ]] := by
  simp [wrapper_path_M_branching, call]

theorem wrapper_path_M_branching_extends {s t : St} (env : Env) (h : Extends s t) :
    Extends s (wrapper_path_M_branching env t) :=
  pop_extends (wrapper_path_M_level1_extends env (push_extends _ h))

/-! ## Stack capture -/

theorem quiet_refl (s : St) : Quiet s s := ⟨rfl, rfl, extends_refl s⟩

theorem quiet_trans {s t u : St} (h1 : Quiet s t) (h2 : Quiet t u) : Quiet s u :=
  ⟨h2.1.trans h1.1, h2.2.1.trans h1.2.1, extends_trans h1.2.2 h2.2.2⟩

theorem emit_quiet (e : Event) (he : Event.payload_stack? e = none) (s : St) :
    Quiet s (emit e s) :=
  ⟨by simp, by simp [he], emit_extends e (extends_refl s)⟩

theorem RtlCaptureStackBackTrace_quiet (env : Env) (s : St) :
    Quiet s (RtlCaptureStackBackTrace env s).2 :=
  ⟨rfl, rfl, ⟨[], by simp [RtlCaptureStackBackTrace]⟩⟩

theorem print_frame_quiet (env : Env) (k : Nat) (s : St) (i : Nat) :
    Quiet s (print_frame env k s i) := by
  unfold print_frame
  split
  · exact emit_quiet (Event.stack_frame i true) rfl s
  · exact emit_quiet (Event.stack_frame i false) rfl s

theorem print_frame_loop_quiet (env : Env) (k : Nat) (l : List Nat) (s : St) :
    Quiet s (l.foldl (print_frame env k) s) := by
  induction l generalizing s with
  | nil => exact quiet_refl s
  | cons i rest ih => exact quiet_trans (print_frame_quiet env k s i) (ih _)

/-- A stack capture returns on the stack it was called on, runs no payload, and
the last event it adds is `stack_done`. -/
theorem capture_and_print_stack_spec (env : Env) (s : St) :
    (capture_and_print_stack env s).stack = s.stack ∧
    payload_stacks (capture_and_print_stack env s) = payload_stacks s ∧
    ∃ before, (capture_and_print_stack env s).trace = s.trace ++ before ++ [Event.stack_done] ∧
      before.filterMap Event.payload_stack? = [] := by
  obtain ⟨s1, hs1, hq⟩ : ∃ s1 : St,
      capture_and_print_stack env s = pop (emit Event.stack_done s1) ∧
      Quiet (push Frame.capture_and_print_stack s) s1 := by
    refine ⟨_, rfl, ?_⟩
    have h1 := quiet_trans (RtlCaptureStackBackTrace_quiet env (push Frame.capture_and_print_stack s))
      (emit_quiet (Event.stack_header
        (RtlCaptureStackBackTrace env (push Frame.capture_and_print_stack s)).1) rfl _)
    have h2 := quiet_trans h1 (print_frame_loop_quiet env (push Frame.capture_and_print_stack s).captures
      (List.range (min (RtlCaptureStackBackTrace env (push Frame.capture_and_print_stack s)).1 15)) _)
    split
    · exact quiet_trans h2 (emit_quiet (Event.stack_more _) rfl _)
    · exact h2
  obtain ⟨m1, m2, extra, hb⟩ := hq
  have h := m2
  simp only [payload_stacks, hb, List.filterMap_append, push, List.filterMap_cons,
    List.filterMap_nil, payload_stack?_values, List.append_nil] at h
  refine ⟨by simp [hs1, m1], by simp [hs1, m2], Event.enter Frame.capture_and_print_stack :: extra,
    by simp [hs1, pop, emit, hb, push], ?_⟩
  simpa [List.filterMap_cons] using List.append_right_eq_self.mp h

/-! ## The registry -/

theorem g_wrappers_length : g_wrappers.length = 13 := rfl

theorem g_wrapper_names_length : g_wrapper_names.length = 13 := rfl

/-- Every registered wrapper returns on the stack it was called on, only adds
events, and runs the payload exactly once. -/
theorem g_wrappers_spec (env : Env) (s : St) (w : Env → St → St) (hw : w ∈ g_wrappers) :
    (w env s).stack = s.stack ∧ payload_calls (w env s) = payload_calls s + 1 ∧
    Extends s (w env s) := by
  simp only [g_wrappers, List.mem_cons, List.mem_singleton, List.not_mem_nil, or_false] at hw
  rcases hw with rfl | rfl | rfl | rfl | rfl | rfl | rfl | rfl | rfl | rfl | rfl | rfl | rfl
  · exact ⟨by simp, by simp [payload_calls], wrapper_path_A_direct_extends env (extends_refl s)⟩
  · exact ⟨by simp, by simp [payload_calls], wrapper_path_B_nested_extends env (extends_refl s)⟩
  · exact ⟨by simp, by simp [payload_calls], wrapper_path_C_deep_extends env (extends_refl s)⟩
  · exact ⟨by simp, by simp [payload_calls], wrapper_path_D_indirect_extends env (extends_refl s)⟩
  · exact ⟨by simp, by simp [payload_calls], wrapper_path_E_entry_extends env (extends_refl s)⟩
  · exact ⟨by simp, by simp [payload_calls], wrapper_path_F_heavy_extends env (extends_refl s)⟩
  · exact ⟨by simp, by simp [payload_calls], wrapper_path_G_virtual_extends env (extends_refl s)⟩
  · exact ⟨by simp, by simp [payload_calls], wrapper_path_H_tower_extends env (extends_refl s)⟩
  · exact ⟨by simp, by simp [payload_calls], wrapper_path_I_deep6_extends env (extends_refl s)⟩
  · exact ⟨by simp, by simp [payload_calls], wrapper_path_J_chain_extends env (extends_refl s)⟩
  · exact ⟨by simp, by simp [payload_calls], wrapper_path_K_mixed_extends env (extends_refl s)⟩
  · exact ⟨by simp, by simp [payload_calls], wrapper_path_L_staircase_extends env (extends_refl s)⟩
  · exact ⟨by simp, by simp [payload_calls], wrapper_path_M_branching_extends env (extends_refl s)⟩

/-! ## Selection -/

theorem select_natCast (n : Nat) : select n = ((n % 13 : Nat) : Int) := by
  simp [select, NUM_WRAPPERS, Int.tmod_eq_emod]

theorem index_natCast {α : Type} (xs : List α) (k : Nat) : index xs (k : Int) = xs.get? k := by
  simp [index]

theorem index_select_names (n : Nat) :
    ∃ name, index g_wrapper_names (select n) = some name := by
  rw [select_natCast, index_natCast]
  have h : n % 13 < g_wrapper_names.length := by
    rw [g_wrapper_names_length]; exact Nat.mod_lt _ (by decide)
  exact ⟨g_wrapper_names.get ⟨n % 13, h⟩, List.get?_eq_get h⟩

theorem index_select_wrappers (n : Nat) :
    ∃ w, w ∈ g_wrappers ∧ index g_wrappers (select n) = some w := by
  rw [select_natCast, index_natCast]
  have h : n % 13 < g_wrappers.length := by
    rw [g_wrappers_length]; exact Nat.mod_lt _ (by decide)
  exact ⟨g_wrappers.get ⟨n % 13, h⟩, List.get_mem _ _ _, List.get?_eq_get h⟩

/-- One call of `execute_random_path`: it succeeds, the index it reports is the
selector applied to the value drawn, the events it adds split at the end of the
stack capture into a part without payload and a part with exactly one, and the
call returns on the stack it was called on. -/
theorem execute_random_path_spec (env : Env) (s : St) :
    ∃ s1 before after,
      execute_random_path env s = some (select (env.gen s.seed s.drawn), s1) ∧
      s1.trace = s.trace ++ before ++ [Event.stack_done] ++ after ∧
      before.filterMap Event.payload_stack? = [] ∧
      (after.filterMap Event.payload_stack?).length = 1 ∧
      s1.stack = s.stack := by
  obtain ⟨name, hname⟩ := index_select_names (env.gen s.seed s.drawn)
  obtain ⟨w, hw, hidx⟩ := index_select_wrappers (env.gen s.seed s.drawn)
  obtain ⟨s2, hs2⟩ : ∃ s2, s2 = emit (Event.selected (select (env.gen s.seed s.drawn)) name)
      (rand env (push Frame.execute_random_path s)).2 := ⟨_, rfl⟩
  have t2 : s2.trace = s.trace ++ [Event.enter Frame.execute_random_path,
      Event.selected (select (env.gen s.seed s.drawn)) name] := by
    simp [hs2, emit, rand, push]
  have k2 : s2.stack = s.stack ++ [Frame.execute_random_path] := by simp [hs2]
  obtain ⟨c1, _, b, hb, hb0⟩ := capture_and_print_stack_spec env s2
  obtain ⟨w1, w2, after, ha⟩ := g_wrappers_spec env (capture_and_print_stack env s2) w hw
  refine ⟨pop (w env (capture_and_print_stack env s2)),
    Event.enter Frame.execute_random_path ::
      Event.selected (select (env.gen s.seed s.drawn)) name :: b, after, ?_, ?_, ?_, ?_, ?_⟩
  · simp [execute_random_path, call_opt, hname, hidx, hs2]
  · simp [pop, ha, hb, t2]
  · simp [List.filterMap_cons, hb0]
  · have h := w2
    simp only [payload_calls, payload_stacks, ha, List.filterMap_append, List.length_append] at h
    omega
  · simp [w1, c1, k2]

theorem payload_calls_of_trace {s t : St} {extra : List Event}
    (h : t.trace = s.trace ++ extra) :
    payload_calls t = payload_calls s + (extra.filterMap Event.payload_stack?).length := by
  simp [payload_calls, payload_stacks, h, List.filterMap_append]

theorem select_natCast_bounds (n : Nat) : 0 ≤ select n ∧ select n < 13 := by
  rw [select_natCast]
  have h : n % 13 < 13 := Nat.mod_lt _ (by decide)
  omega

/-! ## The demonstration loop -/

theorem sum_set_succ (xs : List Int) (k : Nat) (n : Int) (h : xs.get? k = some n) :
    (xs.set k (n + 1)).sum = xs.sum + 1 := by
  induction xs generalizing k with
  | nil => simp at h
  | cons x rest ih =>
    cases k with
    | zero =>
      simp only [List.get?_cons_zero, Option.some.injEq] at h
      simp only [List.set_cons_zero, List.sum_cons, h]
      omega
    | succ j =>
      simp only [List.get?_cons_succ] at h
      simp only [List.set_cons_succ, List.sum_cons, ih j h]
      omega

/-- The statement `path_usage[preview]++` succeeds for a selector value and adds
one to the sum of the thirteen counters. -/
theorem increment_select (path_usage : List Int) (h : path_usage.length = 13) (n : Nat) :
    ∃ updated, increment path_usage (select n) = some updated ∧
      updated.length = 13 ∧ updated.sum = path_usage.sum + 1 := by
  have hk : n % 13 < path_usage.length := by rw [h]; exact Nat.mod_lt _ (by decide)
  have hget : path_usage.get? (n % 13) = some (path_usage.get ⟨n % 13, hk⟩) :=
    List.get?_eq_get hk
  refine ⟨path_usage.set (n % 13) (path_usage.get ⟨n % 13, hk⟩ + 1), ?_, ?_, ?_⟩
  · simp only [increment, select_natCast, index_natCast, hget, Int.toNat_ofNat]
  · simp [h]
  · exact sum_set_succ _ _ _ hget

/-- One pass through the loop body: the counter incremented is the one of the
value drawn before the generator is seeded again, the path executed is the one of
the first value drawn after. -/
theorem run_iteration_spec (env : Env) (i : Int) (path_usage ran : List Int) (s : St)
    (h : path_usage.length = 13) :
    ∃ updated s1,
      run_iteration env i path_usage ran s =
        some ((updated, ran ++ [select (env.gen (reseed (env.time s.clock) i) 0)]), s1) ∧
      increment path_usage (select (env.gen s.seed s.drawn)) = some updated ∧
      updated.length = 13 ∧ updated.sum = path_usage.sum + 1 ∧
      payload_calls s1 = payload_calls s + 1 ∧ s1.stack = s.stack := by
  obtain ⟨updated, hu, hlen, hsum⟩ := increment_select path_usage h (env.gen s.seed s.drawn)
  obtain ⟨s0, hs0⟩ : ∃ s0, s0 = srand (reseed (env.time s.clock) i)
      (time env (rand env { s with g_execution_id := i + 1 }).2).2 := ⟨_, rfl⟩
  have q1 : s0.seed = reseed (env.time s.clock) i ∧ s0.drawn = 0 ∧ s0.stack = s.stack ∧
      s0.trace = s.trace := by
    simp [hs0, srand, time, rand]
  obtain ⟨s1, before, after, hrun, htrace, hb, ha, hstack⟩ := execute_random_path_spec env s0
  rw [q1.1, q1.2.1] at hrun
  refine ⟨updated, s1, ?_, hu, hlen, hsum, ?_, by rw [hstack, q1.2.2.1]⟩
  · have hu1 : increment path_usage
        (select (rand env { s with g_execution_id := i + 1 }).1) = some updated := by
      simpa [rand] using hu
    have ht : (time env (rand env { s with g_execution_id := i + 1 }).2).1
        = env.time s.clock := by simp [time, rand]
    simp only [run_iteration, hu1, ht, ← hs0, hrun]
  · rw [q1.2.2.2, List.append_assoc, List.append_assoc] at htrace
    rw [payload_calls_of_trace htrace]
    simp [List.filterMap_append, List.filterMap_cons, hb, ha]

/-- The loop over a list `l` of counter values: every pass succeeds, counts once,
executes once. -/
theorem run_loop_spec (env : Env) (l : List Nat) (path_usage ran : List Int) (s : St)
    (h : path_usage.length = 13) (hran : ∀ id ∈ ran, 0 ≤ id ∧ id < 13) :
    ∃ updated ran1 s1,
      l.foldlM (fun acc (i : Nat) => run_iteration env (i : Int) acc.1.1 acc.1.2 acc.2)
        ((path_usage, ran), s) = some ((updated, ran1), s1) ∧
      updated.length = 13 ∧ updated.sum = path_usage.sum + l.length ∧
      ran1.length = ran.length + l.length ∧ (∀ id ∈ ran1, 0 ≤ id ∧ id < 13) ∧
      payload_calls s1 = payload_calls s + l.length ∧ s1.stack = s.stack := by
  induction l generalizing path_usage ran s with
  | nil => exact ⟨path_usage, ran, s, rfl, h, by simp, by simp, hran, by simp, rfl⟩
  | cons i rest ih =>
    obtain ⟨u1, s1, hit, _, hlen, hsum, hp, hst⟩ := run_iteration_spec env i path_usage ran s h
    have hran1 : ∀ id ∈ ran ++ [select (env.gen (reseed (env.time s.clock) i) 0)],
        0 ≤ id ∧ id < 13 := by
      intro id hid
      rcases List.mem_append.mp hid with hm | hm
      · exact hran id hm
      · rw [List.mem_singleton.mp hm]; exact select_natCast_bounds _
    obtain ⟨u2, r2, s2, hfold, hlen2, hsum2, hrl, hr2, hp2, hst2⟩ := ih u1 _ s1 hlen hran1
    refine ⟨u2, r2, s2, ?_, hlen2, ?_, ?_, hr2, ?_, hst2.trans hst⟩
    · simp only [List.foldlM_cons, hit, Option.bind_eq_bind, Option.some_bind]
      exact hfold
    · rw [hsum2, hsum, List.length_cons]; push_cast; omega
    · simp only [hrl, List.length_append, List.length_cons, List.length_nil]; omega
    · rw [hp2, hp, List.length_cons]; omega

/-! ## Auxiliary facts for the results -/

theorem countdown_getLast? (n : Nat) : (countdown n).getLast? = some 0 := by
  induction n with
  | zero => rfl
  | succ k ih =>
    cases hc : countdown k with
    | nil => simp [hc] at ih
    | cons a rest => simp [countdown, hc, List.getLast?_cons_cons, ← ih]

theorem clamp_runs_eq (n : Int) :
    clamp_runs n = (if n < 1 then 1 else if n > 10 then 10 else n) := by
  simp only [clamp_runs]
  by_cases h1 : n < 1
  · have h2 : ¬ ((1 : Int) > 10) := by decide
    simp only [h1, if_true, h2, if_false]
  · simp only [h1, if_false]

theorem select_eq_self (id : Int) (h0 : 0 ≤ id) (h1 : id < 13) : select id = id := by
  unfold select NUM_WRAPPERS
  rw [Int.tmod_eq_emod h0 (by decide)]
  exact Int.emod_eq_of_lt h0 h1

/-- How many of the `RAND_MAX + 1` values of `rand()` select a given index. -/
theorem outputs_selecting_natCast (k : Nat) (hk : k < 13) :
    outputs_selecting k = 2520 + (if k < 8 then 1 else 0) := by
  have hp : (fun r : Nat => select r = (k : Int)) = (fun r : Nat => r ≡ k [MOD 13]) := by
    funext r
    rw [select_natCast]
    simp only [Nat.cast_inj, Nat.ModEq, Nat.mod_eq_of_lt hk]
  unfold outputs_selecting
  simp only [hp]
  rw [Nat.count_modEq_card _ (by decide : 0 < 13)]
  simp [RAND_MAX, Nat.mod_eq_of_lt hk]

/-! ## Function entries along path M -/

@[simp]
theorem push_entered (f : Frame) (s : St) : entered (push f s) = entered s ++ [f] := by
  simp [push, entered, List.filterMap_append, List.filterMap_cons, Event.entered?]

@[simp]
theorem pop_entered (s : St) : entered (pop s) = entered s := by
  simp [pop, entered]

@[simp]
theorem emit_entered (e : Event) (s : St) :
    entered (emit e s) = entered s ++ (Event.entered? e).toList := by
  cases h : Event.entered? e <;>
    simp [emit, entered, List.filterMap_append, List.filterMap_cons, h]

@[simp]
theorem rand_entered (env : Env) (s : St) : entered (rand env s).2 = entered s := by
  simp [rand, entered]

@[simp]
theorem alloc_entered (env : Env) (s : St) : entered (alloc env s).2 = entered s := by
  simp [alloc, entered, List.filterMap_append, List.filterMap_cons, Event.entered?]

@[simp]
theorem release_if_entered (mem : Bool) (s : St) : entered (release_if mem s) = entered s := by
  cases mem <;>
    simp [release_if, emit, entered, List.filterMap_append, List.filterMap_cons,
      Event.entered?]

@[simp]
theorem entered?_values :
    (∀ stack, Event.entered? (Event.payload stack) = none) ∧
    (∀ ms, Event.entered? (Event.sleep ms) = none) ∧
    Event.entered? Event.query = none := by
  simp [Event.entered?]

@[simp]
theorem execute_payload_entered (s : St) :
    entered (execute_payload s) = entered s ++ [Frame.execute_payload] := by
  simp [execute_payload, call]

@[simp]
theorem aux_small_delay_entered (env : Env) (s : St) :
    entered (aux_small_delay env s) = entered s ++ [Frame.aux_small_delay] := by
  simp [aux_small_delay, call]

@[simp]
theorem aux_get_time_entered (s : St) :
    entered (aux_get_time s) = entered s ++ [Frame.aux_get_time] := by
  simp [aux_get_time, call]

@[simp]
theorem aux_heap_operation_entered (env : Env) (s : St) :
    entered (aux_heap_operation env s) = entered s ++ [Frame.aux_heap_operation] := by
  simp [aux_heap_operation, call]

@[simp]
theorem aux_query_perf_entered (s : St) :
    entered (aux_query_perf s) = entered s ++ [Frame.aux_query_perf] := by
  simp [aux_query_perf, call]

@[simp]
theorem aux_thread_info_entered (s : St) :
    entered (aux_thread_info s) = entered s ++ [Frame.aux_thread_info] := by
  simp [aux_thread_info, call]

@[simp]
theorem wrapper_path_M_terminus_alpha_entered (s : St) :
    entered (wrapper_path_M_terminus_alpha s) = entered s ++
      [Frame.wrapper_path_M_terminus_alpha, Frame.aux_get_time, Frame.execute_payload] := by
  simp [wrapper_path_M_terminus_alpha, call]

@[simp]
theorem wrapper_path_M_terminus_beta_entered (s : St) :
    entered (wrapper_path_M_terminus_beta s) = entered s ++
      [Frame.wrapper_path_M_terminus_beta, Frame.aux_query_perf, Frame.execute_payload] := by
  simp [wrapper_path_M_terminus_beta, call]

@[simp]
theorem wrapper_path_M_branch_level4_entered (env : Env) (s : St) :
    entered (wrapper_path_M_branch_level4 env s) = entered s ++
      [ Frame.wrapper_path_M_branch_level4,
        M_terminus (env.gen s.seed s.drawn),
        M_terminus_aux (env.gen s.seed s.drawn),
        Frame.execute_payload ] := by
  by_cases h : Int.tmod (env.gen s.seed s.drawn) 2 = 0 <;>
    simp [wrapper_path_M_branch_level4, call, M_terminus, M_terminus_aux, h]

@[simp]
theorem wrapper_path_M_level3_entered (env : Env) (s : St) :
    entered (wrapper_path_M_level3 env s) = entered s ++
      [ Frame.wrapper_path_M_level3,
        Frame.aux_heap_operation,
        Frame.wrapper_path_M_branch_level4,
        M_terminus (env.gen s.seed s.drawn),
        M_terminus_aux (env.gen s.seed s.drawn),
        Frame.execute_payload ] := by
  simp [wrapper_path_M_level3, call]

@[simp]
theorem wrapper_path_M_level2_left_entered (env : Env) (s : St) :
    entered (wrapper_path_M_level2_left env s) = entered s ++
      [ Frame.wrapper_path_M_level2_left,
        Frame.aux_small_delay,
        Frame.wrapper_path_M_level3,
        Frame.aux_heap_operation,
        Frame.wrapper_path_M_branch_level4,
        M_terminus (env.gen s.seed (s.drawn + 1)),
        M_terminus_aux (env.gen s.seed (s.drawn + 1)),
        Frame.execute_payload ] := by
  simp [wrapper_path_M_level2_left, call]

@[simp]
theorem wrapper_path_M_level2_right_entered (env : Env) (s : St) :
    entered (wrapper_path_M_level2_right env s) = entered s ++
      [ Frame.wrapper_path_M_level2_right,
        Frame.aux_thread_info,
        Frame.wrapper_path_M_level3,
        Frame.aux_heap_operation,
        Frame.wrapper_path_M_branch_level4,
        M_terminus (env.gen s.seed s.drawn),
        M_terminus_aux (env.gen s.seed s.drawn),
        Frame.execute_payload ] := by
  simp [wrapper_path_M_level2_right, call]

@[simp]
theorem wrapper_path_M_level1_entered (env : Env) (s : St) :
    entered (wrapper_path_M_level1 env s) = entered s ++
      [ Frame.wrapper_path_M_level1,
        M_side (env.gen s.seed s.drawn),
        M_side_aux (env.gen s.seed s.drawn),
        Frame.wrapper_path_M_level3,
        Frame.aux_heap_operation,
        Frame.wrapper_path_M_branch_level4,
        M_terminus (env.gen s.seed (M_second_draw (env.gen s.seed s.drawn) s.drawn)),
        M_terminus_aux (env.gen s.seed (M_second_draw (env.gen s.seed s.drawn) s.drawn)),
        Frame.execute_payload ] := by
  by_cases h : Int.tmod (env.gen s.seed s.drawn) 2 = 0 <;>
    simp [wrapper_path_M_level1, call, M_side, M_side_aux, M_second_draw, h, Nat.add_assoc]

theorem wrapper_path_M_branching_entered (env : Env) (s : St) :
    entered (wrapper_path_M_branching env s) = entered s ++
      [ Frame.wrapper_path_M_branching,
        Frame.wrapper_path_M_level1,
        M_side (env.gen s.seed s.drawn),
        M_side_aux (env.gen s.seed s.drawn),
        Frame.wrapper_path_M_level3,
        Frame.aux_heap_operation,
        Frame.wrapper_path_M_branch_level4,
        M_terminus (env.gen s.seed (M_second_draw (env.gen s.seed s.drawn) s.drawn)),
        M_terminus_aux (env.gen s.seed (M_second_draw (env.gen s.seed s.drawn) s.drawn)),
        Frame.execute_payload ] := by
  simp [wrapper_path_M_branching, call]

/-! ## Results -/

/-- Claim C1: `g_wrappers` has 13 entries, and every entry, called in any state and
any environment (whatever `rand()` returns, whichever allocations fail), runs the
payload exactly once: the events already there stay, the payload count grows by
one, and the call returns on the stack it was called on. -/
theorem g_wrappers_single_invocation (env : Env) (s : St) (w : Env → St → St)
    (hw : w ∈ g_wrappers) :
    g_wrappers.length = 13 ∧ payload_calls (w env s) = payload_calls s + 1 ∧
    (w env s).stack = s.stack ∧ Extends s (w env s) :=
  ⟨g_wrappers_length, (g_wrappers_spec env s w hw).2.1, (g_wrappers_spec env s w hw).1,
    (g_wrappers_spec env s w hw).2.2⟩

theorem g_wrappers_single_invocation_witness :
    wrapper_path_K_mixed ∈ g_wrappers ∧
    payload_calls (wrapper_path_K_mixed demo_env St.init) = payload_calls St.init + 1 :=
  ⟨by simp [g_wrappers],
    (g_wrappers_single_invocation demo_env St.init wrapper_path_K_mixed
      (by simp [g_wrappers])).2.1⟩

/-- Claim C2: in any state and any environment (any frame count of the capture, any
frames failing to resolve) a call of `execute_random_path` succeeds; the events it
adds are: a part without payload, the end of the stack capture, a part with exactly
one payload execution.  So the payload runs exactly once, after the capture. -/
theorem execute_random_path_single_invocation (env : Env) (s : St) :
    ∃ selected s1 before after,
      execute_random_path env s = some (selected, s1) ∧
      s1.trace = s.trace ++ before ++ [Event.stack_done] ++ after ∧
      before.filterMap Event.payload_stack? = [] ∧
      (after.filterMap Event.payload_stack?).length = 1 ∧
      payload_calls s1 = payload_calls s + 1 ∧ s1.stack = s.stack := by
  obtain ⟨s1, before, after, hrun, htrace, hb, ha, hstack⟩ := execute_random_path_spec env s
  refine ⟨_, s1, before, after, hrun, htrace, hb, ha, ?_, hstack⟩
  rw [List.append_assoc, List.append_assoc] at htrace
  rw [payload_calls_of_trace htrace]
  simp [List.filterMap_append, List.filterMap_cons, hb, ha]

/-- Claim C3, evaluated where it fails: the program started with the argument `2`
on the Microsoft generator, at time 1700000000, the second execution five seconds
later.  The values drawn after `srand(1700000000)` are 28462, 1027, 22663 and the
first value after `srand(1700001005)` is 31744.  The counters incremented are
those of paths 5 and 4 (28462 % 13 and 22663 % 13), the paths executed are 5 and
11 (28462 % 13 and 31744 % 13): F, then L, as the call stacks of the two payload
executions show. -/
theorem run_demonstration_usage_mismatch :
    (main demo_env ["prog", "2"] St.init).map (fun r => (r.1, payload_stacks r.2)) =
      some (([0, 0, 0, 0, 1, 1, 0, 0, 0, 0, 0, 0, 0], [5, 11]),
        [[Frame.main, Frame.run_demonstration, Frame.execute_random_path,
            Frame.wrapper_path_F_heavy, Frame.execute_payload],
          [Frame.main, Frame.run_demonstration, Frame.execute_random_path,
            Frame.wrapper_path_L_staircase, Frame.wrapper_path_L_level1,
            Frame.wrapper_path_L_level2, Frame.wrapper_path_L_level3,
            Frame.wrapper_path_L_level4, Frame.wrapper_path_L_level5,
            Frame.wrapper_path_L_level6, Frame.wrapper_path_L_level7,
            Frame.execute_payload]]) ∧
    [msvc_gen 1700000000 0, msvc_gen 1700000000 1, msvc_gen 1700000000 2,
      msvc_gen 1700001005 0] = [28462, 1027, 22663, 31744] :=
  ⟨rfl, by decide⟩

/-- Claim C4: for a run count `N ≥ 0`, in any environment, `run_demonstration`
succeeds with exactly `N` executions, each of an index in `[0, 13)` and each
running the payload once, and the thirteen counters of `path_usage` sum to `N`. -/
theorem run_demonstration_counts (env : Env) (N : Int) (hN : 0 ≤ N) (s : St) :
    ∃ path_usage ran s1,
      run_demonstration env N s = some ((path_usage, ran), s1) ∧
      (ran.length : Int) = N ∧ (∀ id ∈ ran, 0 ≤ id ∧ id < 13) ∧
      path_usage.length = 13 ∧ path_usage.sum = N ∧
      (payload_calls s1 : Int) = payload_calls s + N := by
  obtain ⟨u, r, s1, hfold, hlen, hsum, hrl, hr, hp, _⟩ :=
    run_loop_spec env (List.range N.toNat) (List.replicate NUM_WRAPPERS.toNat 0) []
      (push Frame.run_demonstration s) (by decide) (by simp)
  have hsum0 : (List.replicate NUM_WRAPPERS.toNat (0 : Int)).sum = 0 := by decide
  have hN1 : ((N.toNat : Nat) : Int) = N := Int.toNat_of_nonneg hN
  refine ⟨u, r, pop s1, ?_, ?_, hr, hlen, ?_, ?_⟩
  · simp only [run_demonstration, call_opt, hfold, Option.map_some']
  · rw [hrl, List.length_range, List.length_nil]; omega
  · rw [hsum, hsum0, List.length_range]; omega
  · have h1 : payload_calls (pop s1) = payload_calls s1 := by simp [payload_calls]
    have h2 : payload_calls (push Frame.run_demonstration s) = payload_calls s := by
      simp [payload_calls]
    rw [h1, hp, h2, List.length_range]; omega

theorem run_demonstration_counts_witness :
    (0 : Int) ≤ 5 ∧ ∃ path_usage ran s1,
      run_demonstration demo_env 5 St.init = some ((path_usage, ran), s1) ∧
      (ran.length : Int) = 5 ∧ (∀ id ∈ ran, 0 ≤ id ∧ id < 13) ∧
      path_usage.length = 13 ∧ path_usage.sum = 5 ∧
      (payload_calls s1 : Int) = payload_calls St.init + 5 :=
  ⟨by decide, run_demonstration_counts demo_env 5 (by decide) St.init⟩

/-- Claim C5: when a positional argument is present, `main` passes to
`run_demonstration` the value `n = atoi(argv[1])` clamped to `[1, 10]`; for every
integer `n` the clamped value is 1 below 1, 10 above 10 and `n` in between, so it
lies in `[1, 10]`. -/
theorem main_num_runs_clamped (argv : List String) (h : 1 < argv.length) (n : Int) :
    main_num_runs argv = clamp_runs (atoi (argv.getD 1 "")) ∧
    clamp_runs n = (if n < 1 then 1 else if n > 10 then 10 else n) ∧
    1 ≤ clamp_runs n ∧ clamp_runs n ≤ 10 := by
  refine ⟨?_, clamp_runs_eq n, ?_, ?_⟩
  · have h1 : argv.length > 1 := h
    simp only [main_num_runs, h1, if_true]
  · rw [clamp_runs_eq]; split <;> omega
  · rw [clamp_runs_eq]; split <;> omega

theorem main_num_runs_clamped_witness :
    1 < ["prog", "42"].length ∧ main_num_runs ["prog", "42"] = 10 ∧ clamp_runs 7 = 7 :=
  ⟨by decide,
    (main_num_runs_clamped ["prog", "42"] (by decide) 7).1.trans (by decide),
    (main_num_runs_clamped ["prog", "42"] (by decide) 7).2.1.trans (by decide)⟩

/-- Claim C6 as stated fails: with the argument `abc`, which is not a number,
`atoi` yields 0 and `main` runs 1 execution, not the default 3. -/
theorem main_num_runs_invalid_argument :
    atoi "abc" = 0 ∧ main_num_runs ["prog", "abc"] = 1 ∧ main_num_runs ["prog", "abc"] ≠ 3 := by
  decide

/-- Claim C6, amended: without a positional argument the run count is the default
3; with an argument for which `atoi` yields 0 (not a number) it is 1, the lower
bound of the clamp. -/
theorem main_num_runs_default (argv : List String) :
    (argv.length ≤ 1 → main_num_runs argv = 3) ∧
    (1 < argv.length → atoi (argv.getD 1 "") = 0 → main_num_runs argv = 1) := by
  constructor
  · intro h
    have h1 : ¬ argv.length > 1 := by omega
    simp only [main_num_runs, h1, if_false]
  · intro h h0
    have h1 : argv.length > 1 := h
    simp only [main_num_runs, h1, if_true, h0]
    decide

theorem main_num_runs_default_witness :
    (["prog"].length ≤ 1 ∧ main_num_runs ["prog"] = 3) ∧
    (1 < ["prog", "x9"].length ∧ atoi (["prog", "x9"].getD 1 "") = 0 ∧
      main_num_runs ["prog", "x9"] = 1) :=
  ⟨⟨by decide, (main_num_runs_default ["prog"]).1 (by decide)⟩,
    ⟨by decide, by decide, (main_num_runs_default ["prog", "x9"]).2 (by decide) (by decide)⟩⟩

/-- Claim C7: for a value `r ≥ 0` of `rand()` the selected index `r % NUM_WRAPPERS`
lies in `[0, 13)` and both arrays have an entry there; and every index `id` in
`[0, 13)` is selected by some value in the range of `rand()`. -/
theorem select_in_bounds_and_onto (r id : Int) (hr : 0 ≤ r) (h0 : 0 ≤ id) (h1 : id < 13) :
    (0 ≤ select r ∧ select r < 13 ∧
      (index g_wrappers (select r)).isSome ∧ (index g_wrapper_names (select r)).isSome) ∧
    ∃ r1 : Int, 0 ≤ r1 ∧ r1 ≤ RAND_MAX ∧ select r1 = id := by
  constructor
  · obtain ⟨n, rfl⟩ := Int.eq_ofNat_of_zero_le hr
    obtain ⟨w, _, hw⟩ := index_select_wrappers n
    obtain ⟨name, hname⟩ := index_select_names n
    exact ⟨(select_natCast_bounds n).1, (select_natCast_bounds n).2, by simp [hw],
      by simp [hname]⟩
  · exact ⟨id, h0, by simp only [RAND_MAX]; omega, select_eq_self id h0 h1⟩

theorem select_in_bounds_and_onto_witness :
    ((0 : Int) ≤ 18467 ∧ (0 : Int) ≤ 12 ∧ (12 : Int) < 13) ∧
    (0 ≤ select 18467 ∧ select 18467 < 13 ∧
      (index g_wrappers (select 18467)).isSome ∧
      (index g_wrapper_names (select 18467)).isSome) ∧
    ∃ r1 : Int, 0 ≤ r1 ∧ r1 ≤ RAND_MAX ∧ select r1 = 12 :=
  ⟨by decide, select_in_bounds_and_onto 18467 12 (by decide) (by decide) (by decide)⟩

/-- Claim C8 as stated fails: of the 32768 values of `rand()`, 2521 select index 0
and 2520 select index 12, so the indices are not equally likely. -/
theorem outputs_selecting_not_uniform :
    outputs_selecting 0 = 2521 ∧ outputs_selecting 12 = 2520 ∧
    outputs_selecting 0 ≠ outputs_selecting 12 := by
  have h0 := outputs_selecting_natCast 0 (by decide)
  have h12 := outputs_selecting_natCast 12 (by decide)
  simp only [Nat.cast_ofNat, Nat.cast_zero] at h0 h12
  rw [h0, h12]
  decide

/-- Claim C8, amended: of the 32768 values of `rand()`, 2521 select each index
from 0 to 7 and 2520 select each index from 8 to 12; the counts differ by one. -/
theorem outputs_selecting_eq (id : Int) (h0 : 0 ≤ id) (h1 : id < 13) :
    outputs_selecting id = (if id < 8 then 2521 else 2520) := by
  obtain ⟨k, rfl⟩ := Int.eq_ofNat_of_zero_le h0
  have hk : k < 13 := by omega
  rw [outputs_selecting_natCast k hk]
  by_cases h8 : k < 8
  · have : (k : Int) < 8 := by omega
    simp [h8, this]
  · have : ¬ (k : Int) < 8 := by omega
    simp [h8, this]

theorem outputs_selecting_eq_witness :
    ((0 : Int) ≤ 9 ∧ (9 : Int) < 13) ∧ outputs_selecting 9 = 2520 :=
  ⟨by decide, (outputs_selecting_eq 9 (by decide) (by decide)).trans (by decide)⟩

/-- Claim C9: both recursive helpers are total functions.  Called with a depth
`d ≥ 0` they are invoked `d + 1` times in all, with the arguments `d, d-1, ..., 0`
in this order, and the payload runs once, below the invocation with argument 0
(for path K through the two nested functions); called with a depth `d ≤ 0` the
helper is invoked once, with no recursive call, and the payload runs once.  With
depth 3 the invocations are 3, 2, 1, 0. -/
theorem recursive_helpers_chain (env : Env) (s : St) (d : Int) :
    (0 ≤ d →
      helper_calls (wrapper_path_E_recursive env d s) = helper_calls s ++ countdown d.toNat ∧
      helper_calls (wrapper_path_K_recursive env d s) = helper_calls s ++ countdown d.toNat ∧
      ((countdown d.toNat).length : Int) = d + 1 ∧ (countdown d.toNat).getLast? = some 0 ∧
      payload_stacks (wrapper_path_E_recursive env d s) = payload_stacks s ++ [s.stack ++
        (countdown d.toNat).map Frame.wrapper_path_E_recursive ++ [Frame.execute_payload]] ∧
      payload_stacks (wrapper_path_K_recursive env d s) = payload_stacks s ++ [s.stack ++
        (countdown d.toNat).map Frame.wrapper_path_K_recursive ++
        [Frame.wrapper_path_K_nested_outer, Frame.wrapper_path_K_nested_inner,
          Frame.execute_payload]]) ∧
    (d ≤ 0 →
      helper_calls (wrapper_path_E_recursive env d s) = helper_calls s ++ [d] ∧
      helper_calls (wrapper_path_K_recursive env d s) = helper_calls s ++ [d] ∧
      payload_calls (wrapper_path_E_recursive env d s) = payload_calls s + 1 ∧
      payload_calls (wrapper_path_K_recursive env d s) = payload_calls s + 1) ∧
    helper_calls (wrapper_path_E_recursive env 3 s) = helper_calls s ++ [3, 2, 1, 0] ∧
    helper_calls (wrapper_path_K_recursive env 3 s) = helper_calls s ++ [3, 2, 1, 0] ∧
    payload_calls (wrapper_path_E_recursive env 3 s) = payload_calls s + 1 ∧
    payload_calls (wrapper_path_K_recursive env 3 s) = payload_calls s + 1 := by
  refine ⟨?_, ?_, ?_, ?_, ?_, ?_⟩
  · intro hd
    obtain ⟨n, rfl⟩ := Int.eq_ofNat_of_zero_le hd
    simp only [Int.toNat_ofNat]
    exact ⟨(wrapper_path_E_recursive_nonneg env n s).2.2,
      (wrapper_path_K_recursive_nonneg env n s).2.2,
      by rw [countdown_length]; push_cast; rfl, countdown_getLast? n,
      (wrapper_path_E_recursive_nonneg env n s).2.1,
      (wrapper_path_K_recursive_nonneg env n s).2.1⟩
  · intro hd
    exact ⟨(wrapper_path_E_recursive_nonpos env d hd s).2.2,
      (wrapper_path_K_recursive_nonpos env d hd s).2.2,
      by simp [payload_calls, (wrapper_path_E_recursive_nonpos env d hd s).2.1],
      by simp [payload_calls, (wrapper_path_K_recursive_nonpos env d hd s).2.1]⟩
  · exact (wrapper_path_E_recursive_nonneg env 3 s).2.2
  · exact (wrapper_path_K_recursive_nonneg env 3 s).2.2
  · have h : payload_stacks (wrapper_path_E_recursive env 3 s) = _ :=
      (wrapper_path_E_recursive_nonneg env 3 s).2.1
    simp [payload_calls, h]
  · have h : payload_stacks (wrapper_path_K_recursive env 3 s) = _ :=
      (wrapper_path_K_recursive_nonneg env 3 s).2.1
    simp [payload_calls, h]

theorem recursive_helpers_chain_witness :
    ((0 : Int) ≤ 2 ∧
      helper_calls (wrapper_path_E_recursive demo_env 2 St.init) = [2, 1, 0] ∧
      helper_calls (wrapper_path_K_recursive demo_env 2 St.init) = [2, 1, 0]) ∧
    ((-1 : Int) ≤ 0 ∧
      helper_calls (wrapper_path_E_recursive demo_env (-1) St.init) = [-1] ∧
      helper_calls (wrapper_path_K_recursive demo_env (-1) St.init) = [-1]) :=
  ⟨⟨by decide,
      ((recursive_helpers_chain demo_env St.init 2).1 (by decide)).1,
      ((recursive_helpers_chain demo_env St.init 2).1 (by decide)).2.1⟩,
    ⟨by decide,
      ((recursive_helpers_chain demo_env St.init (-1)).2.1 (by decide)).1,
      ((recursive_helpers_chain demo_env St.init (-1)).2.1 (by decide)).2.1⟩⟩

/-- Claim C10: for a value `r ≥ 0` of `rand()` the depth `r % 3 + 1` of path E lies
in `[1, 3]` and the depth `r % 4 + 1` of path K in `[1, 4]`; every depth of either
range is drawn for some value in the range of `rand()`; and the entry function,
called in any state, invokes its helper with the drawn depth and then that many
times more, down to 0. -/
theorem entry_depths (env : Env) (s : St) (r dE dK : Int) (hr : 0 ≤ r)
    (hE : 1 ≤ dE ∧ dE ≤ 3) (hK : 1 ≤ dK ∧ dK ≤ 4) :
    (1 ≤ E_depth r ∧ E_depth r ≤ 3 ∧ 1 ≤ K_depth r ∧ K_depth r ≤ 4) ∧
    (∃ r1 : Int, 0 ≤ r1 ∧ r1 ≤ RAND_MAX ∧ E_depth r1 = dE) ∧
    (∃ r1 : Int, 0 ≤ r1 ∧ r1 ≤ RAND_MAX ∧ K_depth r1 = dK) ∧
    helper_calls (wrapper_path_E_entry env s) =
      helper_calls s ++ countdown (E_depth (rand env s).1).toNat ∧
    helper_calls (wrapper_path_K_mixed env s) =
      helper_calls s ++ countdown (K_depth (rand env s).1).toNat ∧
    ((countdown (E_depth (rand env s).1).toNat).length : Int) = E_depth (rand env s).1 + 1 ∧
    ((countdown (K_depth (rand env s).1).toNat).length : Int) = K_depth (rand env s).1 + 1 := by
  have h3 : ∀ n : Nat, n % 3 < 3 := fun n => Nat.mod_lt _ (by decide)
  have h4 : ∀ n : Nat, n % 4 < 4 := fun n => Nat.mod_lt _ (by decide)
  refine ⟨?_, ?_, ?_, ?_, ?_, ?_, ?_⟩
  · obtain ⟨n, rfl⟩ := Int.eq_ofNat_of_zero_le hr
    rw [E_depth_natCast, K_depth_natCast]
    have := h3 n
    have := h4 n
    omega
  · refine ⟨dE - 1, by omega, by simp only [RAND_MAX]; omega, ?_⟩
    obtain ⟨h1, h2⟩ := hE
    have : dE = 1 ∨ dE = 2 ∨ dE = 3 := by omega
    rcases this with rfl | rfl | rfl <;> decide
  · refine ⟨dK - 1, by omega, by simp only [RAND_MAX]; omega, ?_⟩
    obtain ⟨h1, h2⟩ := hK
    have : dK = 1 ∨ dK = 2 ∨ dK = 3 ∨ dK = 4 := by omega
    rcases this with rfl | rfl | rfl | rfl <;> decide
  · simp only [rand_spec, E_depth_natCast, Int.toNat_ofNat]
    exact (wrapper_path_E_entry_spec env s).2.2
  · simp only [rand_spec, K_depth_natCast, Int.toNat_ofNat]
    exact (wrapper_path_K_mixed_spec env s).2.2
  · simp only [rand_spec, E_depth_natCast, Int.toNat_ofNat, countdown_length]
    omega
  · simp only [rand_spec, K_depth_natCast, Int.toNat_ofNat, countdown_length]
    omega

theorem entry_depths_witness :
    ((0 : Int) ≤ 41 ∧ ((1 : Int) ≤ 2 ∧ (2 : Int) ≤ 3) ∧ ((1 : Int) ≤ 4 ∧ (4 : Int) ≤ 4)) ∧
    (1 ≤ E_depth 41 ∧ E_depth 41 ≤ 3 ∧ 1 ≤ K_depth 41 ∧ K_depth 41 ≤ 4) ∧
    (∃ r1 : Int, 0 ≤ r1 ∧ r1 ≤ RAND_MAX ∧ E_depth r1 = 2) ∧
    (∃ r1 : Int, 0 ≤ r1 ∧ r1 ≤ RAND_MAX ∧ K_depth r1 = 4) :=
  ⟨by decide,
    (entry_depths demo_env St.init 41 2 4 (by decide) (by decide) (by decide)).1,
    (entry_depths demo_env St.init 41 2 4 (by decide) (by decide) (by decide)).2.1,
    (entry_depths demo_env St.init 41 2 4 (by decide) (by decide) (by decide)).2.2.1⟩

/-- Claim C11: a call of `wrapper_path_M_branching`, in any state and environment,
returns on the stack it was called on after exactly one payload execution.  The
first draw is the next value of `rand()`; the second is the value two positions
later on the left side (`aux_small_delay` draws in between) and one position
later on the right side.  For each of the four combinations of the two draws
(non-zero `% 2` means left, respectively alpha) the call stack of the payload is
`wrapper_path_M_branching`, level 1, the level-2 function of the first draw,
level 3, level 4, the terminus of the second draw, `execute_payload`.  With left
and alpha the functions entered are exactly those of that sub-path and their
auxiliary functions: neither `wrapper_path_M_level2_right` nor
`wrapper_path_M_terminus_beta` is entered. -/
theorem branching_path_sequence (env : Env) (s : St) :
    (wrapper_path_M_branching env s).stack = s.stack ∧
    payload_calls (wrapper_path_M_branching env s) = payload_calls s + 1 ∧
    (Int.tmod (env.gen s.seed s.drawn) 2 ≠ 0 →
      Int.tmod (env.gen s.seed (s.drawn + 2)) 2 ≠ 0 →
      payload_stacks (wrapper_path_M_branching env s) = payload_stacks s ++
        [s.stack ++
          [ Frame.wrapper_path_M_branching, Frame.wrapper_path_M_level1,
            Frame.wrapper_path_M_level2_left, Frame.wrapper_path_M_level3,
            Frame.wrapper_path_M_branch_level4, Frame.wrapper_path_M_terminus_alpha,
            Frame.execute_payload ]]) ∧
    (Int.tmod (env.gen s.seed s.drawn) 2 ≠ 0 →
      Int.tmod (env.gen s.seed (s.drawn + 2)) 2 = 0 →
      payload_stacks (wrapper_path_M_branching env s) = payload_stacks s ++
        [s.stack ++
          [ Frame.wrapper_path_M_branching, Frame.wrapper_path_M_level1,
            Frame.wrapper_path_M_level2_left, Frame.wrapper_path_M_level3,
            Frame.wrapper_path_M_branch_level4, Frame.wrapper_path_M_terminus_beta,
            Frame.execute_payload ]]) ∧
    (Int.tmod (env.gen s.seed s.drawn) 2 = 0 →
      Int.tmod (env.gen s.seed (s.drawn + 1)) 2 ≠ 0 →
      payload_stacks (wrapper_path_M_branching env s) = payload_stacks s ++
        [s.stack ++
          [ Frame.wrapper_path_M_branching, Frame.wrapper_path_M_level1,
            Frame.wrapper_path_M_level2_right, Frame.wrapper_path_M_level3,
            Frame.wrapper_path_M_branch_level4, Frame.wrapper_path_M_terminus_alpha,
            Frame.execute_payload ]]) ∧
    (Int.tmod (env.gen s.seed s.drawn) 2 = 0 →
      Int.tmod (env.gen s.seed (s.drawn + 1)) 2 = 0 →
      payload_stacks (wrapper_path_M_branching env s) = payload_stacks s ++
        [s.stack ++
          [ Frame.wrapper_path_M_branching, Frame.wrapper_path_M_level1,
            Frame.wrapper_path_M_level2_right, Frame.wrapper_path_M_level3,
            Frame.wrapper_path_M_branch_level4, Frame.wrapper_path_M_terminus_beta,
            Frame.execute_payload ]]) ∧
    (Int.tmod (env.gen s.seed s.drawn) 2 ≠ 0 →
      Int.tmod (env.gen s.seed (s.drawn + 2)) 2 ≠ 0 →
      ∃ new, entered (wrapper_path_M_branching env s) = entered s ++ new ∧
        new =
          [ Frame.wrapper_path_M_branching, Frame.wrapper_path_M_level1,
            Frame.wrapper_path_M_level2_left, Frame.aux_small_delay,
            Frame.wrapper_path_M_level3, Frame.aux_heap_operation,
            Frame.wrapper_path_M_branch_level4, Frame.wrapper_path_M_terminus_alpha,
            Frame.aux_get_time, Frame.execute_payload ] ∧
        Frame.wrapper_path_M_level2_right ∉ new ∧
        Frame.wrapper_path_M_terminus_beta ∉ new) := by
  have hs := wrapper_path_M_branching_spec env s
  have he := wrapper_path_M_branching_entered env s
  refine ⟨hs.1, by simp [payload_calls], ?_, ?_, ?_, ?_, ?_⟩
  · intro h1 h2
    rw [hs.2]
    simp [M_side, M_terminus, M_second_draw, h1, h2]
  · intro h1 h2
    rw [hs.2]
    simp [M_side, M_terminus, M_second_draw, h1, h2]
  · intro h1 h2
    rw [hs.2]
    simp [M_side, M_terminus, M_second_draw, h1, h2]
  · intro h1 h2
    rw [hs.2]
    simp [M_side, M_terminus, M_second_draw, h1, h2]
  · intro h1 h2
    refine ⟨_, he, ?_, ?_, ?_⟩
    · simp [M_side, M_side_aux, M_terminus, M_terminus_aux, M_second_draw, h1, h2]
    · simp [M_side, M_side_aux, M_terminus, M_terminus_aux, M_second_draw, h1, h2]
    · simp [M_side, M_side_aux, M_terminus, M_terminus_aux, M_second_draw, h1, h2]

theorem branching_path_sequence_witness :
    (Int.tmod ((forced_env (fun _ => 1)).gen St.init.seed St.init.drawn) 2 ≠ 0 ∧
      Int.tmod ((forced_env (fun _ => 1)).gen St.init.seed (St.init.drawn + 2)) 2 ≠ 0 ∧
      payload_stacks (wrapper_path_M_branching (forced_env (fun _ => 1)) St.init) =
        [[ Frame.wrapper_path_M_branching, Frame.wrapper_path_M_level1,
          Frame.wrapper_path_M_level2_left, Frame.wrapper_path_M_level3,
          Frame.wrapper_path_M_branch_level4, Frame.wrapper_path_M_terminus_alpha,
          Frame.execute_payload ]]) ∧
    (Int.tmod ((forced_env (fun k => if k = 2 then 0 else 1)).gen St.init.seed St.init.drawn) 2 ≠ 0 ∧
      Int.tmod ((forced_env (fun k => if k = 2 then 0 else 1)).gen St.init.seed (St.init.drawn + 2)) 2 = 0 ∧
      payload_stacks (wrapper_path_M_branching (forced_env (fun k => if k = 2 then 0 else 1)) St.init) =
        [[ Frame.wrapper_path_M_branching, Frame.wrapper_path_M_level1,
          Frame.wrapper_path_M_level2_left, Frame.wrapper_path_M_level3,
          Frame.wrapper_path_M_branch_level4, Frame.wrapper_path_M_terminus_beta,
          Frame.execute_payload ]]) ∧
    (Int.tmod ((forced_env (fun k => k)).gen St.init.seed St.init.drawn) 2 = 0 ∧
      Int.tmod ((forced_env (fun k => k)).gen St.init.seed (St.init.drawn + 1)) 2 ≠ 0 ∧
      payload_stacks (wrapper_path_M_branching (forced_env (fun k => k)) St.init) =
        [[ Frame.wrapper_path_M_branching, Frame.wrapper_path_M_level1,
          Frame.wrapper_path_M_level2_right, Frame.wrapper_path_M_level3,
          Frame.wrapper_path_M_branch_level4, Frame.wrapper_path_M_terminus_alpha,
          Frame.execute_payload ]]) ∧
    (Int.tmod ((forced_env (fun _ => 0)).gen St.init.seed St.init.drawn) 2 = 0 ∧
      Int.tmod ((forced_env (fun _ => 0)).gen St.init.seed (St.init.drawn + 1)) 2 = 0 ∧
      payload_stacks (wrapper_path_M_branching (forced_env (fun _ => 0)) St.init) =
        [[ Frame.wrapper_path_M_branching, Frame.wrapper_path_M_level1,
          Frame.wrapper_path_M_level2_right, Frame.wrapper_path_M_level3,
          Frame.wrapper_path_M_branch_level4, Frame.wrapper_path_M_terminus_beta,
          Frame.execute_payload ]]) ∧
    entered (wrapper_path_M_branching (forced_env (fun _ => 1)) St.init) =
      [ Frame.wrapper_path_M_branching, Frame.wrapper_path_M_level1,
        Frame.wrapper_path_M_level2_left, Frame.aux_small_delay,
        Frame.wrapper_path_M_level3, Frame.aux_heap_operation,
        Frame.wrapper_path_M_branch_level4, Frame.wrapper_path_M_terminus_alpha,
        Frame.aux_get_time, Frame.execute_payload ] := by
  refine ⟨⟨by decide, by decide, ?_⟩, ⟨by decide, by decide, ?_⟩, ⟨by decide, by decide, ?_⟩,
    ⟨by decide, by decide, ?_⟩, ?_⟩
  · exact (branching_path_sequence (forced_env (fun _ => 1)) St.init).2.2.1
      (by decide) (by decide)
  · exact (branching_path_sequence (forced_env (fun k => if k = 2 then 0 else 1)) St.init).2.2.2.1
      (by decide) (by decide)
  · exact (branching_path_sequence (forced_env (fun k => k)) St.init).2.2.2.2.1
      (by decide) (by decide)
  · exact (branching_path_sequence (forced_env (fun _ => 0)) St.init).2.2.2.2.2.1
      (by decide) (by decide)
  · obtain ⟨new, h1, h2, _⟩ := (branching_path_sequence (forced_env (fun _ => 1)) St.init).2.2.2.2.2.2
      (by decide) (by decide)
    rw [h1, h2]
    rfl

end ProbCallStack
